import Mathlib

/-!
Verification development for a data-center cooling-plant simulator.

The Python sources are shallowly embedded over the rationals:
`sim/crac.py` (CRAC unit state machine), `control/pid.py` (PID
controller), `control/sequences.py` (staging sequencer) and
`src/sim/environment.py` (thermal room model).  Python floats are
modelled as rationals; mutation is modelled by explicit state passing.
-/

namespace DCBas

/-- Operational status of a CRAC unit, from `sim/crac.py` (`CRACStatus`). -/
inductive CRACStatus where
  | off
  | starting
  | running
  | stopping
  | failed
  | maintenance
deriving DecidableEq, Repr

/-- Configuration of a CRAC unit, from `sim/crac.py` (`CRACConfig`),
with the dataclass defaults. -/
structure CRACConfig where
  unit_id : String := "CRAC-01"
  q_rated_kw : ℚ := 50
  efficiency_cop : ℚ := 7/2
  min_capacity_pct : ℚ := 20
  max_capacity_pct : ℚ := 100
  startup_time_s : ℚ := 180
  shutdown_time_s : ℚ := 60
  mtbf_hours : ℚ := 8760
  mttr_hours : ℚ := 4
deriving DecidableEq, Repr

/-- Mutable state of a CRAC unit, from `sim/crac.py` (`CRACUnit.__init__`).
The field defaults are the constructor's initial values;
`next_failure_hours` is initialized to `cfg.mtbf_hours` by `initCRAC`. -/
structure CRACUnit where
  cfg : CRACConfig
  enable : Bool := false
  cmd_pct : ℚ := 0
  status : CRACStatus := .off
  q_cool_kw : ℚ := 0
  power_kw : ℚ := 0
  availability : ℚ := 1
  transition_timer_s : ℚ := 0
  runtime_hours : ℚ := 0
  energy_kwh : ℚ := 0
  failed : Bool := false
  failure_timer_s : ℚ := 0
  next_failure_hours : ℚ := 8760
  starts_count : ℕ := 0
  total_runtime_hours : ℚ := 0
deriving DecidableEq, Repr

/-- `CRACUnit.__init__`: a fresh unit for a given configuration. -/
def initCRAC (cfg : CRACConfig) : CRACUnit :=
  { cfg := cfg, next_failure_hours := cfg.mtbf_hours }

/-- `CRACUnit._update_failure_simulation`: repair countdown while failed,
otherwise failure countdown (failure trips only while RUNNING). -/
def updateFailureSimulation (u : CRACUnit) (dt_hours : ℚ) : CRACUnit :=
  if u.failed then
    let ft := u.failure_timer_s - dt_hours * 3600
    if ft ≤ 0 then
      { u with failure_timer_s := ft, failed := false, status := .off,
               next_failure_hours := u.cfg.mtbf_hours }
    else
      { u with failure_timer_s := ft }
  else
    let nf := u.next_failure_hours - dt_hours
    if nf ≤ 0 ∧ u.status = .running then
      { u with next_failure_hours := nf, failed := true, status := .failed,
               failure_timer_s := u.cfg.mttr_hours * 3600 }
    else
      { u with next_failure_hours := nf }

/-- `CRACUnit._update_status_transitions`: startup/shutdown timing. -/
def updateStatusTransitions (u : CRACUnit) (dt : ℚ) : CRACUnit :=
  if u.failed then
    { u with status := .failed }
  else if u.enable then
    if u.status = .off then
      { u with status := .starting, transition_timer_s := u.cfg.startup_time_s,
               starts_count := u.starts_count + 1 }
    else if u.status = .starting then
      let t := u.transition_timer_s - dt
      if t ≤ 0 then { u with status := .running, transition_timer_s := 0 }
      else { u with transition_timer_s := t }
    else u
  else
    if u.status = .running ∨ u.status = .starting then
      { u with status := .stopping, transition_timer_s := u.cfg.shutdown_time_s }
    else if u.status = .stopping then
      let t := u.transition_timer_s - dt
      if t ≤ 0 then { u with status := .off, transition_timer_s := 0 }
      else { u with transition_timer_s := t }
    else u

/-- `CRACUnit._calculate_cooling_output`. -/
def calculateCoolingOutput (u : CRACUnit) : CRACUnit :=
  if u.status = .running then
    let clamped_cmd := max u.cfg.min_capacity_pct
      (min u.cfg.max_capacity_pct u.cmd_pct)
    { u with q_cool_kw := clamped_cmd / 100 * u.cfg.q_rated_kw * u.availability }
  else if u.status = .starting then
    let startup_progress := 1 - u.transition_timer_s / u.cfg.startup_time_s
    { u with q_cool_kw := u.cmd_pct / 100 * startup_progress *
                          u.cfg.q_rated_kw * u.availability }
  else
    { u with q_cool_kw := 0 }

/-- `CRACUnit._calculate_power_consumption`. -/
def calculatePowerConsumption (u : CRACUnit) : CRACUnit :=
  if u.q_cool_kw > 0 ∧ u.cfg.efficiency_cop > 0 then
    { u with power_kw := u.q_cool_kw / u.cfg.efficiency_cop +
                         1/20 * u.cfg.q_rated_kw }
  else
    { u with power_kw := 1/2 }

/-- The energy and runtime accounting at the end of `CRACUnit.step`. -/
def stepAccounting (u : CRACUnit) (dt_hours : ℚ) : CRACUnit :=
  let u := if u.status = .running then
      { u with runtime_hours := u.runtime_hours + dt_hours,
               total_runtime_hours := u.total_runtime_hours + dt_hours }
    else u
  { u with energy_kwh := u.energy_kwh + u.power_kw * dt_hours }

/-- `CRACUnit.step`: one simulation timestep of `dt` seconds (failure
simulation, then status transitions, then cooling output, then power
consumption, then runtime/energy accounting). -/
def CRACUnit.step (u : CRACUnit) (dt : ℚ) : CRACUnit :=
  stepAccounting
    (calculatePowerConsumption
      (calculateCoolingOutput
        (updateStatusTransitions (updateFailureSimulation u (dt / 3600)) dt)))
    (dt / 3600)

/-- `CRACUnit.force_failure`: scenario hook forcing failure;
`duration_hours = none` means the configured MTTR is used. -/
def forceFailure (u : CRACUnit) (duration_hours : Option ℚ) : CRACUnit :=
  { u with failed := true, status := .failed,
           failure_timer_s := (duration_hours.getD u.cfg.mttr_hours) * 3600 }

/-- Iterated `CRACUnit.step` with a fixed timestep. -/
def stepN (u : CRACUnit) (dt : ℚ) : ℕ → CRACUnit
  | 0 => u
  | n + 1 => (stepN u dt n).step dt

/-- PID configuration, from `control/pid.py` (`PIDConfig`), with the
dataclass defaults. -/
structure PIDConfig where
  kp : ℚ := 2
  ki : ℚ := 1/10
  kd : ℚ := 1/20
  output_min : ℚ := 0
  output_max : ℚ := 100
  rate_limit : ℚ := 10
  integral_windup_limit : ℚ := 50
deriving DecidableEq, Repr

/-- Mutable PID controller state, from `control/pid.py`
(`PIDController.__init__`). -/
structure PIDState where
  cfg : PIDConfig
  prev_error : ℚ := 0
  integral : ℚ := 0
  prev_measurement : ℚ := 0
  prev_output : ℚ := 0
  first_update : Bool := true
  max_error : ℚ := 0
  update_count : ℕ := 0
deriving DecidableEq, Repr

/-- `PIDController.__init__`: a fresh controller for a configuration. -/
def initPID (cfg : PIDConfig) : PIDState :=
  { cfg := cfg }

/-- Output clamping `max(output_min, min(output_max, raw_output))`
from `PIDController.update`. -/
def clampQ (lo hi x : ℚ) : ℚ := max lo (min hi x)

/-- The rate-limiting block of `PIDController.update`: skipped on the
first update, otherwise the output moves at most `mc = rate_limit * dt`
away from the previous output. -/
def rateLimitQ (first : Bool) (prev mc x : ℚ) : ℚ :=
  if first then x
  else if |x - prev| > mc then
    prev + mc * (if x - prev > 0 then 1 else -1)
  else x

/-- The guard of the anti-windup back-calculation in
`PIDController.update`: `clamped_output != raw_output and
self.cfg.ki != 0`. -/
def backCalcApplies (ki raw clamped : ℚ) : Bool :=
  decide (clamped ≠ raw) && decide (ki ≠ 0)

/-- `PIDController.update`: returns the next state and the control
output. -/
def PIDState.update (p : PIDState) (setpoint measurement dt : ℚ) :
    PIDState × ℚ :=
  let error := measurement - setpoint
  let max_error := max p.max_error |error|
  let p_term := p.cfg.kp * error
  let integral :=
    if ¬ p.first_update then
      let raw := p.integral + error * dt
      let max_integral :=
        if p.cfg.ki ≠ 0 then p.cfg.integral_windup_limit / |p.cfg.ki|
        else 1000
      max (-max_integral) (min max_integral raw)
    else p.integral
  let i_term := p.cfg.ki * integral
  let d_term :=
    if ¬ p.first_update ∧ dt > 0 then
      -p.cfg.kd * ((measurement - p.prev_measurement) / dt)
    else 0
  let raw_output := p_term + i_term + d_term
  let clamped_output := clampQ p.cfg.output_min p.cfg.output_max raw_output
  let clamped_output :=
    rateLimitQ p.first_update p.prev_output (p.cfg.rate_limit * dt)
      clamped_output
  let integral :=
    if backCalcApplies p.cfg.ki raw_output clamped_output then
      integral - (raw_output - clamped_output) / p.cfg.ki
    else integral
  ({ p with prev_error := error, prev_measurement := measurement,
            prev_output := clamped_output, first_update := false,
            integral := integral, max_error := max_error,
            update_count := p.update_count + 1 },
   clamped_output)

/-- Run a PID controller over a list of `(setpoint, measurement, dt)`
inputs, collecting the outputs in order. -/
def pidRun (p : PIDState) : List (ℚ × ℚ × ℚ) → List ℚ
  | [] => []
  | (sp, m, dt) :: rest =>
    let r := p.update sp m dt
    r.2 :: pidRun r.1 rest

/-- Outputs of a freshly constructed controller over an input list. -/
def pidOutputs (cfg : PIDConfig) (inputs : List (ℚ × ℚ × ℚ)) : List ℚ :=
  pidRun (initPID cfg) inputs

/-- Room configuration, from `src/sim/environment.py` (`RoomConfig`),
with the dataclass defaults. -/
structure RoomConfig where
  initial_temp_c : ℚ := 24
  ambient_temp_c : ℚ := 22
  thermal_mass_kj_per_c : ℚ := 2500
  ua_kw_per_c : ℚ := 1/4
  it_load_kw : ℚ := 40
  infil_ua_kw_per_c : ℚ := 0
  n_virtual_sensors : ℕ := 3
deriving DecidableEq, Repr

/-- Mutable room state, from `src/sim/environment.py` (`Room.__init__`). -/
structure Room where
  cfg : RoomConfig
  temp_c : ℚ
  ambient_temp_c : ℚ
  it_load_kw : ℚ
  infil_ua_kw_per_c : ℚ
  time_s : ℚ := 0
  cooling_energy_kwh : ℚ := 0
  server_energy_kwh : ℚ := 0
  min_temp_c : ℚ := 10
  max_temp_c : ℚ := 40
deriving DecidableEq, Repr

/-- `Room.__init__`: a fresh room for a configuration. -/
def initRoom (cfg : RoomConfig) : Room :=
  { cfg := cfg, temp_c := cfg.initial_temp_c,
    ambient_temp_c := cfg.ambient_temp_c,
    it_load_kw := cfg.it_load_kw,
    infil_ua_kw_per_c := cfg.infil_ua_kw_per_c }

/-- `Room.step`: advance the thermal model by `dt` seconds with
`q_cool_kw` of cooling. -/
def Room.step (r : Room) (dt q_cool_kw : ℚ) : Room :=
  let ua_total := r.cfg.ua_kw_per_c + r.infil_ua_kw_per_c
  let q_server_kw := r.it_load_kw
  let q_envelope_kw := ua_total * (r.temp_c - r.ambient_temp_c)
  let q_net_kw := q_server_kw - q_cool_kw - q_envelope_kw
  let dt_temp_c := q_net_kw * 1000 / r.cfg.thermal_mass_kj_per_c * dt
  let t := r.temp_c + dt_temp_c
  let t := max r.min_temp_c (min r.max_temp_c t)
  let dt_hours := dt / 3600
  { r with temp_c := t,
           cooling_energy_kwh := r.cooling_energy_kwh + q_cool_kw * dt_hours,
           server_energy_kwh := r.server_energy_kwh + q_server_kw * dt_hours,
           time_s := r.time_s + dt }

/-- Iterated `Room.step` with a fixed timestep and cooling input. -/
def roomStepN (r : Room) (dt q_cool_kw : ℚ) : ℕ → Room
  | 0 => r
  | n + 1 => (roomStepN r dt q_cool_kw n).step dt q_cool_kw

/-- Staging roles, from `control/sequences.py` (`CRACRole`). -/
inductive CRACRole where
  | lead
  | lag
  | standby
deriving DecidableEq, Repr

/-- Staging configuration, from `control/sequences.py`
(`StagingConfig`), with the dataclass defaults. -/
structure StagingConfig where
  temp_error_threshold : ℚ := 1
  staging_delay_s : ℚ := 300
  destaging_delay_s : ℚ := 600
  rotation_runtime_hours : ℚ := 168
  enable_rotation : Bool := true
  staging_hysteresis : ℚ := 1/5
  destaging_hysteresis : ℚ := 3/10
deriving DecidableEq, Repr

/-- Assignment of a CRAC unit to a role, from `control/sequences.py`
(`CRACAssignment`). -/
structure CRACAssignment where
  unit : CRACUnit
  role : CRACRole
  assigned_time : ℚ := 0
  staging_timer_s : ℚ := 0
  destaging_timer_s : ℚ := 0
deriving DecidableEq, Repr

/-- Sequencer state, from `control/sequences.py`
(`CRACSequencer.__init__`). -/
structure CRACSequencer where
  cfg : StagingConfig
  assignments : List CRACAssignment
  setpoint_c : ℚ := 22
  current_temp_c : ℚ := 22
  temp_error : ℚ := 0
  lag_staged : Bool := false
  standby_staged : Bool := false
  total_runtime_hours : ℚ := 0
  rotation_count : ℕ := 0
deriving DecidableEq, Repr

/-- Role assignment by list position, as in `CRACSequencer.__init__`:
index 0 is LEAD, index 1 is LAG, the rest are STANDBY. -/
def initRole (i : ℕ) : CRACRole :=
  if i = 0 then .lead else if i = 1 then .lag else .standby

/-- Build the initial assignment list from a list of units. -/
def initAssignments (i : ℕ) : List CRACUnit → List CRACAssignment
  | [] => []
  | u :: rest => { unit := u, role := initRole i } :: initAssignments (i + 1) rest

/-- `CRACSequencer.__init__` for a list of units and a configuration. -/
def initSequencer (cracs : List CRACUnit) (cfg : StagingConfig) :
    CRACSequencer :=
  { cfg := cfg, assignments := initAssignments 0 cracs }

/-- Index of the first assignment holding a role
(`CRACSequencer._get_assignment_by_role` returns the first match;
mutation of that object is modelled as an update at this index). -/
def findRoleIdx : List CRACAssignment → CRACRole → Option ℕ
  | [], _ => none
  | a :: rest, r =>
    if a.role = r then some 0 else (findRoleIdx rest r).map (· + 1)

/-- The `Always enable LEAD unit if available` step of
`CRACSequencer._process_staging_logic`. -/
def enableLead (s : CRACSequencer) : CRACSequencer :=
  match findRoleIdx s.assignments .lead with
  | some i =>
    match s.assignments[i]? with
    | some a =>
      if ¬ a.unit.failed then
        let as2 := s.assignments.set i
          { a with unit := { a.unit with enable := true } }
        { s with assignments := as2 }
      else s
    | none => s
  | none => s

/-- The `LAG staging logic` step of
`CRACSequencer._process_staging_logic`. -/
def lagStaging (s : CRACSequencer) : CRACSequencer :=
  match findRoleIdx s.assignments .lag with
  | some i =>
    match s.assignments[i]? with
    | some a =>
      if ¬ a.unit.failed then
        let error_with_hysteresis := s.temp_error +
          (if s.lag_staged then s.cfg.staging_hysteresis else 0)
        if error_with_hysteresis ≥ s.cfg.temp_error_threshold ∧
            ¬ s.lag_staged then
          -- Start staging timer if not already running
          let a1 := if a.staging_timer_s ≤ 0 then
              { a with staging_timer_s := s.cfg.staging_delay_s } else a
          -- Enable LAG if timer expired
          if a1.staging_timer_s ≤ 0 then
            let as2 := s.assignments.set i
              { a1 with unit := { a1.unit with enable := true } }
            { s with assignments := as2, lag_staged := true }
          else
            { s with assignments := s.assignments.set i a1 }
        else if s.lag_staged ∧ error_with_hysteresis <
            s.cfg.temp_error_threshold - s.cfg.destaging_hysteresis then
          -- Start destaging timer
          let a1 := if a.destaging_timer_s ≤ 0 then
              { a with destaging_timer_s := s.cfg.destaging_delay_s } else a
          -- Disable LAG if timer expired
          if a1.destaging_timer_s ≤ 0 then
            let as2 := s.assignments.set i
              { a1 with unit := { a1.unit with enable := false } }
            { s with assignments := as2, lag_staged := false }
          else
            { s with assignments := s.assignments.set i a1 }
        else s
      else s
    | none => s
  | none => s

/-- Disabling of one STANDBY assignment (the `Disable all STANDBY units
if not needed` loop body of the STANDBY staging logic). -/
def disableStandby (a : CRACAssignment) : CRACAssignment :=
  if a.role = .standby then
    { a with unit := { a.unit with enable := false } }
  else a

/-- Enable the first non-failed STANDBY assignment (the `for ... break`
loop of the STANDBY staging logic); `none` when no such assignment
exists, in which case the loop falls through with no effect. -/
def enableFirstStandby : List CRACAssignment → Option (List CRACAssignment)
  | [] => none
  | a :: rest =>
    if a.role = .standby ∧ ¬ a.unit.failed then
      some ({ a with unit := { a.unit with enable := true } } :: rest)
    else
      (enableFirstStandby rest).map (a :: ·)

/-- The `STANDBY staging logic` step of
`CRACSequencer._process_staging_logic`.  The `lead_failed` and
`lag_failed` flags are recomputed from the current list; this agrees
with the source's captured references because the earlier steps modify
neither roles nor `failed` flags. -/
def standbyStaging (s : CRACSequencer) : CRACSequencer :=
  let leadFailed :=
    match findRoleIdx s.assignments .lead with
    | some i =>
      match s.assignments[i]? with
      | some a => a.unit.failed
      | none => true
    | none => true
  let lagFailed :=
    match findRoleIdx s.assignments .lag with
    | some i =>
      match s.assignments[i]? with
      | some a => a.unit.failed
      | none => true
    | none => true
  if s.assignments.any (fun a => a.role == .standby) &&
      (leadFailed || lagFailed) then
    match enableFirstStandby s.assignments with
    | some as => { s with assignments := as, standby_staged := true }
    | none => s
  else
    { s with assignments := s.assignments.map disableStandby,
             standby_staged := false }

/-- `CRACSequencer._process_staging_logic`: LEAD enable, LAG
staging/destaging, STANDBY failover. -/
def processStagingLogic (s : CRACSequencer) : CRACSequencer :=
  standbyStaging (lagStaging (enableLead s))

/-- `CRACSequencer._handle_role_rotation`: swap LEAD and LAG when the
LEAD's runtime reaches the rotation threshold and both units are
healthy and not STARTING. -/
def handleRoleRotation (s : CRACSequencer) : CRACSequencer :=
  if ¬ s.cfg.enable_rotation then s
  else
    match findRoleIdx s.assignments .lead, findRoleIdx s.assignments .lag with
    | some i, some j =>
      match s.assignments[i]?, s.assignments[j]? with
      | some leadA, some lagA =>
        if leadA.assigned_time ≥ s.cfg.rotation_runtime_hours then
          if ¬ leadA.unit.failed ∧ ¬ lagA.unit.failed ∧
              leadA.unit.status ≠ .starting ∧ lagA.unit.status ≠ .starting then
            let as2 := (s.assignments.set i
              { leadA with role := .lag, assigned_time := 0 }).set j
              { lagA with role := .lead, assigned_time := 0 }
            { s with assignments := as2,
                     rotation_count := s.rotation_count + 1 }
          else s
        else s
      | _, _ => s
    | _, _ => s

/-- Command assignment for one unit inside
`CRACSequencer._distribute_cooling_load`: enabled, non-failed units get
the per-unit percentage capped at 100, all others get 0. -/
def distributeTo (per_unit_pct : ℚ) (a : CRACAssignment) : CRACAssignment :=
  if a.unit.enable ∧ ¬ a.unit.failed then
    { a with unit := { a.unit with cmd_pct := min 100 per_unit_pct } }
  else
    { a with unit := { a.unit with cmd_pct := 0 } }

/-- `CRACSequencer._distribute_cooling_load`: equal split of the PID
output over enabled, non-failed units, capped at 100%. -/
def distributeCoolingLoad (s : CRACSequencer) (total_output_pct : ℚ) :
    CRACSequencer :=
  let enabled_units := s.assignments.filter
    (fun a => a.unit.enable && ! a.unit.failed)
  if enabled_units.length = 0 then s
  else
    let per_unit_pct := total_output_pct / enabled_units.length
    { s with assignments := s.assignments.map (distributeTo per_unit_pct) }

/-- The per-assignment body of the timer update at the top of
`CRACSequencer.update`: accumulate runtime while RUNNING, count
staging/destaging timers down (floored at 0). -/
def tickAssignment (dt dt_hours : ℚ) (a : CRACAssignment) : CRACAssignment :=
  let a := if a.unit.status = .running then
      { a with assigned_time := a.assigned_time + dt_hours } else a
  { a with staging_timer_s := max 0 (a.staging_timer_s - dt),
           destaging_timer_s := max 0 (a.destaging_timer_s - dt) }

/-- The assignment-timer update at the top of `CRACSequencer.update`. -/
def updateAssignmentTimers (s : CRACSequencer) (dt dt_hours : ℚ) :
    CRACSequencer :=
  { s with assignments := s.assignments.map (tickAssignment dt dt_hours) }

/-- The final per-assignment unit step of `CRACSequencer.update`. -/
def stepAssignment (dt : ℚ) (a : CRACAssignment) : CRACAssignment :=
  { a with unit := a.unit.step dt }

/-- `CRACSequencer.update`: one control tick. -/
def CRACSequencer.update (s : CRACSequencer)
    (dt setpoint_c measurement_c pid_output_pct : ℚ) : CRACSequencer :=
  let dt_hours := dt / 3600
  let s := { s with total_runtime_hours := s.total_runtime_hours + dt_hours,
                    setpoint_c := setpoint_c,
                    current_temp_c := measurement_c,
                    temp_error := |setpoint_c - measurement_c| }
  let s := updateAssignmentTimers s dt dt_hours
  let s := handleRoleRotation s
  let s := processStagingLogic s
  let s := distributeCoolingLoad s pid_output_pct
  { s with assignments := s.assignments.map (stepAssignment dt) }

/-- `CRACSequencer.force_role_rotation`: swap LEAD and LAG if both are
healthy; returns the new state and whether a rotation occurred. -/
def forceRoleRotation (s : CRACSequencer) : CRACSequencer × Bool :=
  match findRoleIdx s.assignments .lead, findRoleIdx s.assignments .lag with
  | some i, some j =>
    match s.assignments[i]?, s.assignments[j]? with
    | some leadA, some lagA =>
      if ¬ leadA.unit.failed ∧ ¬ lagA.unit.failed then
        let as2 := (s.assignments.set i
          { leadA with role := .lag, assigned_time := 0 }).set j
          { lagA with role := .lead, assigned_time := 0 }
        ({ s with assignments := as2,
                  rotation_count := s.rotation_count + 1 }, true)
      else (s, false)
    | _, _ => (s, false)
  | _, _ => (s, false)

/-- Roles of the assignment list, in order. -/
def rolesOf (as : List CRACAssignment) : List CRACRole :=
  as.map (fun a => a.role)

/-- Number of assignments currently holding the LEAD role. -/
def leadCount (s : CRACSequencer) : ℕ :=
  s.assignments.countP (fun a => a.role == .lead)

/-! Concrete scenario states used by the claims below. -/

/-- Staging configuration with rotation disabled (rotation is
orthogonal to the LAG-staging claim). -/
def c1cfg : StagingConfig := { enable_rotation := false }

/-- Two-unit sequencer (LEAD + LAG), fresh units, rotation disabled. -/
def c1seq0 : CRACSequencer :=
  initSequencer [initCRAC {}, initCRAC { unit_id := "CRAC-02" }] c1cfg

/-- The C1 scenario: every tick has `dt = 1`, setpoint 22 °C and
measurement 24 °C, so the temperature error is constantly 2 °C, well
above the 1 °C staging threshold. -/
def c1iter : ℕ → CRACSequencer
  | 0 => c1seq0
  | n + 1 => (c1iter n).update 1 22 24 100

/-- A sequencer state used to exhibit the staging-hysteresis behavior:
not staged, temperature error exactly at the threshold. -/
def c3s : CRACSequencer :=
  { cfg := {},
    assignments := [⟨initCRAC {}, .lead, 0, 0, 0⟩,
                    ⟨initCRAC { unit_id := "CRAC-02" }, .lag, 0, 0, 0⟩],
    temp_error := 1 }

/-- A PID controller with `ki = 0` and a large proportional gain, so a
single update saturates the output clamp. -/
def c4p : PIDState := initPID { kp := 100, ki := 0, kd := 0 }

/-- A single enabled, healthy unit for the load-distribution claim. -/
def c6s : CRACSequencer :=
  { cfg := {}, assignments := [⟨{ cfg := {}, enable := true }, .lead, 0, 0, 0⟩] }

/-- The LEAD unit of the failure/recovery scenario: a fresh unit forced
to fail for one hour at t = 0 (before any sequencer update, so its
enable command is still false). -/
def c7lead : CRACUnit := forceFailure (initCRAC {}) (some 1)

/-- Three-unit sequencer (LEAD + LAG + STANDBY) whose LEAD was forced
to fail at t = 0. -/
def c7seq0 : CRACSequencer :=
  initSequencer [c7lead, initCRAC { unit_id := "CRAC-02" },
                 initCRAC { unit_id := "CRAC-03" }] {}

/-- The first sequencer update after the forced LEAD failure. -/
def c7seq1 : CRACSequencer := c7seq0.update 1 22 22 50

/-- A two-unit sequencer whose LEAD unit is healthy but mid-transition
(STARTING). -/
def c8s : CRACSequencer :=
  { cfg := {},
    assignments := [⟨{ cfg := {}, status := CRACStatus.starting }, .lead, 0, 0, 0⟩,
                    ⟨initCRAC { unit_id := "CRAC-02" }, .lag, 0, 0, 0⟩] }

/-- A room whose temperature equals the ambient temperature but lies
above the 40 °C safety clamp, with zero IT load. -/
def c10r : Room :=
  { cfg := {}, temp_c := 50, ambient_temp_c := 50, it_load_kw := 0,
    infil_ua_kw_per_c := 0 }

/-- A concrete STOPPING unit for the C9 witness: shutting down with 30 s
left on the transition timer while the enable command is back on. -/
def c9u : CRACUnit :=
  { cfg := {}, enable := true, status := .stopping, transition_timer_s := 30 }

/-!  Lemmas about the CRAC unit state machine. -/

theorem ufs_failed_pos (u : CRACUnit) (d : ℚ) (hf : u.failed = true)
    (ht : 0 < u.failure_timer_s - d * 3600) :
    updateFailureSimulation u d =
      { u with failure_timer_s := u.failure_timer_s - d * 3600 } := by
  unfold updateFailureSimulation
  simp [hf, not_le.mpr ht]

theorem ufs_failed_done (u : CRACUnit) (d : ℚ) (hf : u.failed = true)
    (ht : u.failure_timer_s - d * 3600 ≤ 0) :
    updateFailureSimulation u d =
      { u with failure_timer_s := u.failure_timer_s - d * 3600,
               failed := false, status := .off,
               next_failure_hours := u.cfg.mtbf_hours } := by
  unfold updateFailureSimulation
  simp [hf, ht]

theorem ufs_ok_notrun (u : CRACUnit) (d : ℚ) (hf : u.failed = false)
    (hs : u.status ≠ .running) :
    updateFailureSimulation u d =
      { u with next_failure_hours := u.next_failure_hours - d } := by
  unfold updateFailureSimulation
  simp [hf, hs]

theorem ufs_nf (u : CRACUnit) (d : ℚ) (hf : u.failed = false) :
    (updateFailureSimulation u d).next_failure_hours =
      u.next_failure_hours - d := by
  unfold updateFailureSimulation
  simp only [hf, Bool.false_eq_true, if_false]
  split_ifs <;> rfl

theorem ust_failed (u : CRACUnit) (dt : ℚ) (hf : u.failed = true) :
    updateStatusTransitions u dt = { u with status := .failed } := by
  unfold updateStatusTransitions
  simp [hf]

theorem ust_stopping_en (u : CRACUnit) (dt : ℚ) (hf : u.failed = false)
    (he : u.enable = true) (hs : u.status = .stopping) :
    updateStatusTransitions u dt = u := by
  unfold updateStatusTransitions
  simp [hf, he, hs]

theorem ust_off_noen (u : CRACUnit) (dt : ℚ) (hf : u.failed = false)
    (he : u.enable = false) (hs : u.status = .off) :
    updateStatusTransitions u dt = u := by
  unfold updateStatusTransitions
  simp [hf, he, hs]

theorem ust_nf (u : CRACUnit) (dt : ℚ) :
    (updateStatusTransitions u dt).next_failure_hours =
      u.next_failure_hours := by
  unfold updateStatusTransitions; dsimp only; split_ifs <;> rfl

theorem cco_not_run_start (u : CRACUnit) (h1 : u.status ≠ .running)
    (h2 : u.status ≠ .starting) :
    calculateCoolingOutput u = { u with q_cool_kw := 0 } := by
  unfold calculateCoolingOutput
  rw [if_neg h1, if_neg h2]

theorem cco_nf (u : CRACUnit) :
    (calculateCoolingOutput u).next_failure_hours = u.next_failure_hours := by
  unfold calculateCoolingOutput; dsimp only; split_ifs <;> rfl

theorem cpc_zero (u : CRACUnit) (h : u.q_cool_kw = 0) :
    calculatePowerConsumption u = { u with power_kw := 1/2 } := by
  unfold calculatePowerConsumption
  simp [h]

theorem cpc_nf (u : CRACUnit) :
    (calculatePowerConsumption u).next_failure_hours =
      u.next_failure_hours := by
  unfold calculatePowerConsumption; split_ifs <;> rfl

theorem acc_notrun (u : CRACUnit) (d : ℚ) (h : u.status ≠ .running) :
    stepAccounting u d =
      { u with energy_kwh := u.energy_kwh + u.power_kw * d } := by
  unfold stepAccounting
  dsimp only
  rw [if_neg h]

theorem acc_nf (u : CRACUnit) (d : ℚ) :
    (stepAccounting u d).next_failure_hours = u.next_failure_hours := by
  unfold stepAccounting; dsimp only; split_ifs <;> rfl

theorem ufs_enable (u : CRACUnit) (d : ℚ) :
    (updateFailureSimulation u d).enable = u.enable := by
  unfold updateFailureSimulation; dsimp only; split_ifs <;> rfl

theorem ust_enable (u : CRACUnit) (dt : ℚ) :
    (updateStatusTransitions u dt).enable = u.enable := by
  unfold updateStatusTransitions; dsimp only; split_ifs <;> rfl

theorem cco_enable (u : CRACUnit) :
    (calculateCoolingOutput u).enable = u.enable := by
  unfold calculateCoolingOutput; dsimp only; split_ifs <;> rfl

theorem cpc_enable (u : CRACUnit) :
    (calculatePowerConsumption u).enable = u.enable := by
  unfold calculatePowerConsumption; split_ifs <;> rfl

theorem acc_enable (u : CRACUnit) (d : ℚ) :
    (stepAccounting u d).enable = u.enable := by
  unfold stepAccounting; dsimp only; split_ifs <;> rfl

/-- `CRACUnit.step` never changes the enable command. -/
theorem step_enable (u : CRACUnit) (dt : ℚ) :
    (u.step dt).enable = u.enable := by
  unfold CRACUnit.step
  rw [acc_enable, cpc_enable, cco_enable, ust_enable, ufs_enable]

theorem ust_failed_proj (u : CRACUnit) (dt : ℚ) :
    (updateStatusTransitions u dt).failed = u.failed := by
  unfold updateStatusTransitions; dsimp only; split_ifs <;> rfl

theorem cco_failed (u : CRACUnit) :
    (calculateCoolingOutput u).failed = u.failed := by
  unfold calculateCoolingOutput; dsimp only; split_ifs <;> rfl

theorem cpc_failed (u : CRACUnit) :
    (calculatePowerConsumption u).failed = u.failed := by
  unfold calculatePowerConsumption; split_ifs <;> rfl

theorem acc_failed (u : CRACUnit) (d : ℚ) :
    (stepAccounting u d).failed = u.failed := by
  unfold stepAccounting; dsimp only; split_ifs <;> rfl

/-- A healthy unit that is not RUNNING cannot fail during a step. -/
theorem step_failed_keep (u : CRACUnit) (dt : ℚ) (hf : u.failed = false)
    (hs : u.status ≠ .running) :
    (u.step dt).failed = false := by
  unfold CRACUnit.step
  rw [acc_failed, cpc_failed, cco_failed, ust_failed_proj,
    ufs_ok_notrun _ _ hf hs]
  exact hf

/-- A step of a STOPPING, enabled, healthy unit changes only the failure
countdown and the cooling/power/energy bookkeeping. -/
theorem step_stopping_eq (u : CRACUnit) (dt : ℚ) (hf : u.failed = false)
    (he : u.enable = true) (hs : u.status = .stopping) :
    u.step dt = { u with next_failure_hours := u.next_failure_hours - dt / 3600,
                         q_cool_kw := 0, power_kw := 1/2,
                         energy_kwh := u.energy_kwh + 1/2 * (dt / 3600) } := by
  simp [CRACUnit.step, ufs_ok_notrun, ust_stopping_en, cco_not_run_start,
    cpc_zero, acc_notrun, hf, he, hs]

/-- A step of a failed unit whose repair timer has not yet elapsed. -/
theorem step_failed_pos_eq (u : CRACUnit) (dt : ℚ) (hf : u.failed = true)
    (ht : 0 < u.failure_timer_s - dt) :
    u.step dt = { u with failure_timer_s := u.failure_timer_s - dt,
                         status := .failed, q_cool_kw := 0, power_kw := 1/2,
                         energy_kwh := u.energy_kwh + 1/2 * (dt / 3600) } := by
  simp [CRACUnit.step, ufs_failed_pos, ust_failed, cco_not_run_start,
    cpc_zero, acc_notrun, hf, ht]

/-- A step of a disabled, healthy, OFF unit changes only the failure
countdown and the cooling/power/energy bookkeeping. -/
theorem step_off_noen_eq (u : CRACUnit) (dt : ℚ) (hf : u.failed = false)
    (he : u.enable = false) (hs : u.status = .off) :
    u.step dt = { u with next_failure_hours := u.next_failure_hours - dt / 3600,
                         q_cool_kw := 0, power_kw := 1/2,
                         energy_kwh := u.energy_kwh + 1/2 * (dt / 3600) } := by
  simp [CRACUnit.step, ufs_ok_notrun, ust_off_noen, cco_not_run_start,
    cpc_zero, acc_notrun, hf, he, hs]

/-- A step of a disabled failed unit whose repair timer elapses. -/
theorem step_repair_eq (u : CRACUnit) (dt : ℚ) (hf : u.failed = true)
    (ht : u.failure_timer_s - dt ≤ 0) (he : u.enable = false) :
    u.step dt = { u with failure_timer_s := u.failure_timer_s - dt,
                         failed := false, status := .off,
                         next_failure_hours := u.cfg.mtbf_hours,
                         q_cool_kw := 0, power_kw := 1/2,
                         energy_kwh := u.energy_kwh + 1/2 * (dt / 3600) } := by
  simp [CRACUnit.step, ufs_failed_done, ust_off_noen, cco_not_run_start,
    cpc_zero, acc_notrun, hf, ht, he]

/-- While `k * dt < 3600` the forced-failed LEAD unit of the C7 scenario
stays FAILED, with repair timer `3600 - k * dt` and no enable command. -/
theorem c7_failed_inv (dt : ℚ) (hdt : 0 < dt) (k : ℕ)
    (hk : (k : ℚ) * dt < 3600) :
    (stepN c7lead dt k).failed = true ∧
    (stepN c7lead dt k).status = .failed ∧
    (stepN c7lead dt k).failure_timer_s = 3600 - (k : ℚ) * dt ∧
    (stepN c7lead dt k).enable = false := by
  induction k with
  | zero =>
    refine ⟨rfl, rfl, ?_, rfl⟩
    show (1 : ℚ) * 3600 = 3600 - (0 : ℕ) * dt
    push_cast; ring
  | succ k ih =>
    have hk' : (k : ℚ) * dt < 3600 := by push_cast at hk ⊢; nlinarith
    obtain ⟨h1, h2, h3, h4⟩ := ih hk'
    have hpos : 0 < (stepN c7lead dt k).failure_timer_s - dt := by
      rw [h3]; push_cast at hk ⊢; nlinarith
    have hstep := step_failed_pos_eq (stepN c7lead dt k) dt h1 hpos
    refine ⟨?_, ?_, ?_, ?_⟩ <;> simp [stepN, hstep, h1, h3, h4]
    ring

/-- At cumulative stepping time exactly 3600 s the forced-failed unit is
repaired and back to OFF. -/
theorem c7_repaired (dt : ℚ) (hdt : 0 < dt) (k : ℕ)
    (hk : (k : ℚ) * dt = 3600) :
    (stepN c7lead dt k).status = .off ∧
    (stepN c7lead dt k).failed = false := by
  cases k with
  | zero => simp at hk
  | succ m =>
    have hm : (m : ℚ) * dt < 3600 := by push_cast at hk ⊢; nlinarith
    obtain ⟨h1, h2, h3, h4⟩ := c7_failed_inv dt hdt m hm
    have hz : (stepN c7lead dt m).failure_timer_s - dt ≤ 0 := by
      rw [h3]; push_cast at hk ⊢; nlinarith
    have hstep := step_repair_eq (stepN c7lead dt m) dt h1 hz h4
    constructor <;> simp [stepN, hstep]

/-!  Lemmas about the PID controller. -/

theorem clampQ_mem (lo hi x : ℚ) (h : lo ≤ hi) :
    lo ≤ clampQ lo hi x ∧ clampQ lo hi x ≤ hi := by
  unfold clampQ
  exact ⟨le_max_left _ _, max_le h (min_le_left _ _)⟩

theorem rateLimitQ_bounds (first : Bool) (prev mc x lo hi : ℚ)
    (hp1 : lo ≤ prev) (hp2 : prev ≤ hi) (hx1 : lo ≤ x) (hx2 : x ≤ hi)
    (hmc : 0 ≤ mc) :
    lo ≤ rateLimitQ first prev mc x ∧ rateLimitQ first prev mc x ≤ hi := by
  unfold rateLimitQ
  split_ifs with h1 h2 h3
  · exact ⟨hx1, hx2⟩
  · rw [abs_of_pos (by linarith)] at h2
    constructor <;> nlinarith
  · have hxp : x - prev ≤ 0 := by linarith [not_lt.mp h3]
    rw [abs_of_nonpos hxp] at h2
    constructor <;> nlinarith
  · exact ⟨hx1, hx2⟩

theorem rateLimitQ_rate (prev mc x : ℚ) (hmc : 0 ≤ mc) :
    |rateLimitQ false prev mc x - prev| ≤ mc := by
  unfold rateLimitQ
  simp only [Bool.false_eq_true, if_false]
  split_ifs with h1 h2
  · rw [mul_one]
    simp [abs_of_nonneg hmc]
  · rw [mul_neg_one]
    simp [abs_of_nonneg hmc]
  · exact not_lt.mp h1

/-- The output of `PIDController.update` is the rate-limited clamp of
some raw PID sum. -/
theorem pid_update_out (p : PIDState) (sp m dt : ℚ) :
    ∃ raw, (p.update sp m dt).2 =
      rateLimitQ p.first_update p.prev_output (p.cfg.rate_limit * dt)
        (clampQ p.cfg.output_min p.cfg.output_max raw) :=
  ⟨_, rfl⟩

/-- `PIDController.update` records its returned output as the new
previous output, clears the first-update flag and keeps the
configuration. -/
theorem pid_update_state (p : PIDState) (sp m dt : ℚ) :
    (p.update sp m dt).1.prev_output = (p.update sp m dt).2 ∧
    (p.update sp m dt).1.first_update = false ∧
    (p.update sp m dt).1.cfg = p.cfg :=
  ⟨rfl, rfl, rfl⟩

/-- Single-update output bounds. -/
theorem pid_step_bounds (p : PIDState) (sp m dt : ℚ)
    (hb : p.cfg.output_min ≤ p.cfg.output_max) (hr : 0 ≤ p.cfg.rate_limit)
    (hdt : 0 ≤ dt)
    (hInv : p.first_update = true ∨
      (p.cfg.output_min ≤ p.prev_output ∧ p.prev_output ≤ p.cfg.output_max)) :
    p.cfg.output_min ≤ (p.update sp m dt).2 ∧
    (p.update sp m dt).2 ≤ p.cfg.output_max := by
  obtain ⟨raw, hout⟩ := pid_update_out p sp m dt
  rw [hout]
  obtain ⟨hc1, hc2⟩ := clampQ_mem p.cfg.output_min p.cfg.output_max raw hb
  rcases hInv with hfu | ⟨hp1, hp2⟩
  · rw [hfu]
    exact ⟨hc1, hc2⟩
  · exact rateLimitQ_bounds _ _ _ _ _ _ hp1 hp2 hc1 hc2 (mul_nonneg hr hdt)

/-- Single-update rate bound: any non-first update moves the output at
most `rate_limit * dt` away from the previous output. -/
theorem pid_step_rate (p : PIDState) (sp m dt : ℚ)
    (hfu : p.first_update = false) (hmc : 0 ≤ p.cfg.rate_limit * dt) :
    |(p.update sp m dt).2 - p.prev_output| ≤ p.cfg.rate_limit * dt := by
  obtain ⟨raw, hout⟩ := pid_update_out p sp m dt
  rw [hout, hfu]
  exact rateLimitQ_rate _ _ _ hmc

/-- Bounds and rate limit for a whole run of the controller. -/
theorem pidRun_spec (inputs : List (ℚ × ℚ × ℚ)) : ∀ (p : PIDState),
    p.cfg.output_min ≤ p.cfg.output_max → 0 ≤ p.cfg.rate_limit →
    (∀ x ∈ inputs, 0 < x.2.2) →
    (p.first_update = true ∨
      (p.cfg.output_min ≤ p.prev_output ∧ p.prev_output ≤ p.cfg.output_max)) →
    (∀ o ∈ pidRun p inputs, p.cfg.output_min ≤ o ∧ o ≤ p.cfg.output_max) ∧
    (∀ (i : ℕ) (a b : ℚ) (x : ℚ × ℚ × ℚ), (pidRun p inputs)[i]? = some a →
      (pidRun p inputs)[i + 1]? = some b → inputs[i + 1]? = some x →
      |b - a| ≤ p.cfg.rate_limit * x.2.2) := by
  induction inputs with
  | nil =>
    intro p _ _ _ _
    constructor
    · intro o ho
      simp [pidRun] at ho
    · intro i a b x _ hb2 _
      simp [pidRun] at hb2
  | cons hd tl ih =>
    intro p hb hr hdt hInv
    obtain ⟨sp, m, dtv⟩ := hd
    have hdtv : 0 < dtv := hdt _ (List.mem_cons_self _ _)
    have hout_mem := pid_step_bounds p sp m dtv hb hr (le_of_lt hdtv) hInv
    obtain ⟨hprev, hfu, hcfg⟩ := pid_update_state p sp m dtv
    have ihp := ih (p.update sp m dtv).1 (by rw [hcfg]; exact hb)
      (by rw [hcfg]; exact hr)
      (fun x hx => hdt x (List.mem_cons_of_mem _ hx))
      (Or.inr (by rw [hprev, hcfg]; exact hout_mem))
    have hrun : pidRun p ((sp, m, dtv) :: tl) =
        (p.update sp m dtv).2 :: pidRun (p.update sp m dtv).1 tl := rfl
    constructor
    · intro o ho
      rw [hrun] at ho
      rcases List.mem_cons.mp ho with h | h
      · rw [h]; exact hout_mem
      · have := ihp.1 o h
        rwa [hcfg] at this
    · intro i a b x ha hb2 hx
      rw [hrun] at ha hb2
      cases i with
      | zero =>
        rw [List.getElem?_cons_zero, Option.some.injEq] at ha
        rw [List.getElem?_cons_succ] at hb2
        rw [List.getElem?_cons_succ] at hx
        cases tl with
        | nil => simp [pidRun] at hb2
        | cons hd2 tl2 =>
          obtain ⟨sp2, m2, dt2⟩ := hd2
          have hrun2 : pidRun (p.update sp m dtv).1 ((sp2, m2, dt2) :: tl2) =
              ((p.update sp m dtv).1.update sp2 m2 dt2).2 ::
              pidRun ((p.update sp m dtv).1.update sp2 m2 dt2).1 tl2 := rfl
          rw [hrun2, List.getElem?_cons_zero, Option.some.injEq] at hb2
          rw [List.getElem?_cons_zero, Option.some.injEq] at hx
          have hdt2 : 0 < dt2 := hdt _ (List.mem_cons_of_mem _
            (List.mem_cons_self _ _))
          have hrate := pid_step_rate (p.update sp m dtv).1 sp2 m2 dt2 hfu
            (by rw [hcfg]; exact mul_nonneg hr (le_of_lt hdt2))
          rw [hprev, hcfg] at hrate
          rw [← ha, ← hb2, ← hx]
          exact hrate
      | succ i =>
        rw [List.getElem?_cons_succ] at ha hb2
        rw [List.getElem?_cons_succ] at hx
        have := ihp.2 i a b x ha hb2 hx
        rwa [hcfg] at this

/-!  Lemmas about the staging sequencer. -/

theorem tick_role (dt dh : ℚ) (a : CRACAssignment) :
    (tickAssignment dt dh a).role = a.role := by
  unfold tickAssignment; dsimp only; split_ifs <;> rfl

theorem tick_unit (dt dh : ℚ) (a : CRACAssignment) :
    (tickAssignment dt dh a).unit = a.unit := by
  unfold tickAssignment; dsimp only; split_ifs <;> rfl

theorem distributeTo_role (p : ℚ) (a : CRACAssignment) :
    (distributeTo p a).role = a.role := by
  unfold distributeTo; split_ifs <;> rfl

theorem distributeTo_enable (p : ℚ) (a : CRACAssignment) :
    (distributeTo p a).unit.enable = a.unit.enable := by
  unfold distributeTo; split_ifs <;> rfl

theorem distributeTo_failed (p : ℚ) (a : CRACAssignment) :
    (distributeTo p a).unit.failed = a.unit.failed := by
  unfold distributeTo; split_ifs <;> rfl

theorem distributeTo_status (p : ℚ) (a : CRACAssignment) :
    (distributeTo p a).unit.status = a.unit.status := by
  unfold distributeTo; split_ifs <;> rfl

/-- Automatic rotation does nothing when rotation is disabled. -/
theorem rot_skip (s : CRACSequencer) (h : s.cfg.enable_rotation = false) :
    handleRoleRotation s = s := by
  unfold handleRoleRotation
  simp [h]

/-- Automatic rotation does nothing when the first LEAD unit is failed. -/
theorem rot_noop_of_lead_failed (s : CRACSequencer) (a0 : CRACAssignment)
    (rest : List CRACAssignment) (hsh : s.assignments = a0 :: rest)
    (r0 : a0.role = .lead) (hf : a0.unit.failed = true) :
    handleRoleRotation s = s := by
  unfold handleRoleRotation
  by_cases hrot : s.cfg.enable_rotation
  · rw [if_neg (by simp [hrot])]
    have h1 : findRoleIdx s.assignments .lead = some 0 := by
      simp [hsh, findRoleIdx, r0]
    rw [h1]
    rcases hl : findRoleIdx s.assignments .lag with _ | j
    · rfl
    · dsimp only
      have h0 : s.assignments[0]? = some a0 := by simp [hsh]
      rw [h0]
      rcases hg : s.assignments[j]? with _ | b
      · rfl
      · dsimp only
        split_ifs with h2 h3
        · exact absurd h3.1 (by simp [hf])
        · rfl
        · rfl
  · rw [if_pos (by simp [hrot])]

/-- The LEAD-enable step on an assignment list headed by the LEAD. -/
theorem enableLead_cons (s : CRACSequencer) (a0 : CRACAssignment)
    (rest : List CRACAssignment) (hsh : s.assignments = a0 :: rest)
    (r0 : a0.role = .lead) :
    ∃ c0, (enableLead s).assignments = c0 :: rest ∧ c0.role = .lead ∧
      c0.unit.failed = a0.unit.failed ∧ c0.unit.status = a0.unit.status ∧
      (a0.unit.failed = false → c0.unit.enable = true) ∧
      (a0.unit.failed = true → c0 = a0) ∧
      (enableLead s).cfg = s.cfg ∧
      (enableLead s).lag_staged = s.lag_staged ∧
      (enableLead s).standby_staged = s.standby_staged ∧
      (enableLead s).temp_error = s.temp_error ∧
      (enableLead s).rotation_count = s.rotation_count := by
  unfold enableLead
  have h1 : findRoleIdx s.assignments .lead = some 0 := by
    simp [hsh, findRoleIdx, r0]
  rw [h1]
  dsimp only
  have h0 : s.assignments[0]? = some a0 := by simp [hsh]
  rw [h0]
  dsimp only
  by_cases hf : a0.unit.failed
  · rw [if_neg (by simp [hf])]
    exact ⟨a0, hsh, r0, rfl, rfl, by simp [hf], fun _ => rfl, rfl, rfl, rfl,
      rfl, rfl⟩
  · simp only [Bool.not_eq_true] at hf
    rw [if_pos (by simp [hf])]
    refine ⟨{ a0 with unit := { a0.unit with enable := true } },
      ?_, r0, rfl, rfl, fun _ => rfl, fun h => absurd h (by simp [hf]),
      rfl, rfl, rfl, rfl, rfl⟩
    dsimp only
    rw [hsh]
    rfl

/-- The LAG-staging step when the LAG is not yet staged and the staging
delay is positive: the LAG unit itself is never modified (in particular
its enable flag is untouched) and the sequencer stays unstaged. -/
theorem lagStaging_unstaged (s : CRACSequencer) (c0 a1 : CRACAssignment)
    (rest : List CRACAssignment) (hsh : s.assignments = c0 :: a1 :: rest)
    (hc0 : c0.role ≠ .lag) (r1 : a1.role = .lag) (hls : s.lag_staged = false)
    (hdel : 0 < s.cfg.staging_delay_s) :
    ∃ d1, (lagStaging s).assignments = c0 :: d1 :: rest ∧ d1.role = .lag ∧
      d1.unit = a1.unit ∧
      (lagStaging s).lag_staged = false ∧ (lagStaging s).cfg = s.cfg ∧
      (lagStaging s).standby_staged = s.standby_staged ∧
      (lagStaging s).temp_error = s.temp_error ∧
      (lagStaging s).rotation_count = s.rotation_count := by
  unfold lagStaging
  have h1 : findRoleIdx s.assignments .lag = some 1 := by
    simp [hsh, findRoleIdx, hc0, r1]
  rw [h1]
  dsimp only
  have hget : s.assignments[1]? = some a1 := by simp [hsh]
  rw [hget]
  dsimp only
  by_cases hf : a1.unit.failed
  · rw [if_neg (by simp [hf])]
    exact ⟨a1, hsh, r1, rfl, hls, rfl, rfl, rfl, rfl⟩
  · simp only [Bool.not_eq_true] at hf
    rw [if_pos (by simp [hf])]
    simp only [hls, Bool.false_eq_true, if_false, not_false_iff, and_true,
      add_zero]
    by_cases hcond : s.temp_error ≥ s.cfg.temp_error_threshold
    · rw [if_pos hcond]
      by_cases htm : a1.staging_timer_s ≤ 0
      · rw [if_pos htm]
        rw [if_neg (show ¬({ a1 with staging_timer_s :=
            s.cfg.staging_delay_s } : CRACAssignment).staging_timer_s ≤ 0 from
          not_le.mpr hdel)]
        refine ⟨{ a1 with staging_timer_s := s.cfg.staging_delay_s },
          ?_, r1, rfl, rfl, rfl, rfl, rfl, rfl⟩
        dsimp only
        rw [hsh]
        rfl
      · rw [if_neg htm, if_neg htm]
        refine ⟨a1, ?_, r1, rfl, rfl, rfl, rfl, rfl, rfl⟩
        dsimp only
        rw [hsh]
        rfl
    · rw [if_neg hcond]
      rw [if_neg (by simp [hls])]
      exact ⟨a1, hsh, r1, rfl, hls, rfl, rfl, rfl, rfl⟩

/-- Exact staging/destaging-timer behavior of the LAG step when both
timers are idle: the staging timer is armed to `staging_delay_s` exactly
when the sequencer is unstaged and `temp_error ≥ temp_error_threshold`;
the destaging timer is armed to `destaging_delay_s` exactly when staged
and `temp_error + staging_hysteresis <
temp_error_threshold - destaging_hysteresis`. -/
theorem lagStaging_arm (s : CRACSequencer) (c0 a1 : CRACAssignment)
    (rest : List CRACAssignment) (hsh : s.assignments = c0 :: a1 :: rest)
    (hc0 : c0.role ≠ .lag) (r1 : a1.role = .lag) (hf : a1.unit.failed = false)
    (hst : a1.staging_timer_s = 0) (hdt : a1.destaging_timer_s = 0)
    (hd1 : 0 < s.cfg.staging_delay_s) (hd2 : 0 < s.cfg.destaging_delay_s) :
    ∃ d1, (lagStaging s).assignments = c0 :: d1 :: rest ∧ d1.role = .lag ∧
      (s.lag_staged = false →
        d1.staging_timer_s = (if s.cfg.temp_error_threshold ≤ s.temp_error
          then s.cfg.staging_delay_s else 0)) ∧
      (s.lag_staged = true →
        d1.destaging_timer_s = (if s.temp_error + s.cfg.staging_hysteresis <
            s.cfg.temp_error_threshold - s.cfg.destaging_hysteresis
          then s.cfg.destaging_delay_s else 0)) := by
  unfold lagStaging
  have h1 : findRoleIdx s.assignments .lag = some 1 := by
    simp [hsh, findRoleIdx, hc0, r1]
  rw [h1]
  dsimp only
  have hget : s.assignments[1]? = some a1 := by simp [hsh]
  rw [hget]
  dsimp only
  rw [if_pos (by simp [hf])]
  by_cases hls : s.lag_staged
  · simp only [hls, if_true, if_pos]
    rw [if_neg (by simp)]
    by_cases hcond : s.temp_error + s.cfg.staging_hysteresis <
        s.cfg.temp_error_threshold - s.cfg.destaging_hysteresis
    · rw [if_pos ⟨by trivial, hcond⟩]
      rw [if_pos (le_of_eq hdt)]
      rw [if_neg (show ¬({ a1 with destaging_timer_s :=
          s.cfg.destaging_delay_s } : CRACAssignment).destaging_timer_s ≤ 0
        from not_le.mpr hd2)]
      refine ⟨{ a1 with destaging_timer_s := s.cfg.destaging_delay_s },
        ?_, r1, fun h => absurd h (by simp [hls]), fun _ => by
          dsimp only; rw [if_pos hcond]⟩
      dsimp only
      rw [hsh]
      rfl
    · rw [if_neg (fun h => hcond h.2)]
      exact ⟨a1, hsh, r1, fun h => absurd h (by simp [hls]),
        fun _ => by rw [hdt, if_neg hcond]⟩
  · simp only [Bool.not_eq_true] at hls
    simp only [hls, Bool.false_eq_true, if_false, not_false_iff, and_true,
      add_zero]
    by_cases hcond : s.cfg.temp_error_threshold ≤ s.temp_error
    · rw [if_pos (by exact hcond)]
      rw [if_pos (le_of_eq hst)]
      rw [if_neg (show ¬({ a1 with staging_timer_s :=
          s.cfg.staging_delay_s } : CRACAssignment).staging_timer_s ≤ 0
        from not_le.mpr hd1)]
      refine ⟨{ a1 with staging_timer_s := s.cfg.staging_delay_s },
        ?_, r1, fun _ => by dsimp only; rw [if_pos hcond],
        fun h => absurd h (by simp [hls])⟩
      dsimp only
      rw [hsh]
      rfl
    · rw [if_neg (by exact hcond), if_neg (by simp [hls])]
      exact ⟨a1, hsh, r1, fun _ => by rw [hst, if_neg hcond],
        fun h => absurd h (by simp [hls])⟩

/-- The STANDBY-staging step when no assignment holds STANDBY (it only
resets the standby-staged flag). -/
theorem standbyStaging_nostandby2 (s : CRACSequencer) (x0 x1 : CRACAssignment)
    (hsh : s.assignments = [x0, x1]) (h0 : x0.role ≠ .standby)
    (h1 : x1.role ≠ .standby) :
    (standbyStaging s).assignments = [x0, x1] ∧
    (standbyStaging s).lag_staged = s.lag_staged ∧
    (standbyStaging s).cfg = s.cfg ∧
    (standbyStaging s).temp_error = s.temp_error ∧
    (standbyStaging s).rotation_count = s.rotation_count := by
  unfold standbyStaging
  have hany : (s.assignments.any fun a => a.role == .standby) = false := by
    simp [hsh, beq_eq_false_iff_ne, h0, h1]
  rw [if_neg (by simp [hany])]
  refine ⟨?_, rfl, rfl, rfl, rfl⟩
  dsimp only
  rw [hsh]
  simp [disableStandby, h0, h1]

/-- The STANDBY-staging step with a failed LEAD and a healthy STANDBY:
the STANDBY unit is enabled immediately. -/
theorem standbyStaging_failover3 (s : CRACSequencer)
    (x0 x1 x2 : CRACAssignment) (hsh : s.assignments = [x0, x1, x2])
    (r0 : x0.role = .lead) (r1 : x1.role = .lag) (r2 : x2.role = .standby)
    (hf0 : x0.unit.failed = true) (hf2 : x2.unit.failed = false) :
    (standbyStaging s).assignments =
      [x0, x1, { x2 with unit := { x2.unit with enable := true } }] ∧
    (standbyStaging s).lag_staged = s.lag_staged ∧
    (standbyStaging s).cfg = s.cfg ∧
    (standbyStaging s).temp_error = s.temp_error := by
  unfold standbyStaging
  have h1 : findRoleIdx s.assignments .lead = some 0 := by
    simp [hsh, findRoleIdx, r0]
  have h2 : enableFirstStandby s.assignments =
      some [x0, x1, { x2 with unit := { x2.unit with enable := true } }] := by
    rw [hsh]
    simp [enableFirstStandby, r0, r1, r2, hf2]
  rw [if_pos ?hcond]
  case hcond =>
    rw [h1]
    dsimp only
    have h0g : s.assignments[0]? = some x0 := by simp [hsh]
    rw [h0g]
    dsimp only
    have hany : (s.assignments.any fun a => a.role == .standby) = true := by
      rw [hsh]; simp [r2]
    rw [hf0, hany]
    simp
  rw [h2]
  exact ⟨rfl, rfl, rfl, rfl⟩

/-- Pointwise description of `_distribute_cooling_load`: roles, enable,
failed and status are untouched; the command of an enabled, non-failed
unit becomes the capped per-unit share, that of any other unit becomes 0
(when at least one unit is enabled; with none, nothing changes). -/
theorem distribute_entry (s : CRACSequencer) (t : ℚ) (i : ℕ)
    (a : CRACAssignment) (h : s.assignments[i]? = some a) :
    ∃ b, (distributeCoolingLoad s t).assignments[i]? = some b ∧
      b.role = a.role ∧ b.unit.enable = a.unit.enable ∧
      b.unit.failed = a.unit.failed ∧ b.unit.status = a.unit.status ∧
      ((s.assignments.filter
          (fun x => x.unit.enable && ! x.unit.failed)).length = 0 →
        b = a) ∧
      ((s.assignments.filter
          (fun x => x.unit.enable && ! x.unit.failed)).length ≠ 0 →
        (a.unit.enable = true → a.unit.failed = false →
          b.unit.cmd_pct = min 100 (t /
            (s.assignments.filter
              (fun x => x.unit.enable && ! x.unit.failed)).length)) ∧
        (a.unit.enable = false ∨ a.unit.failed = true →
          b.unit.cmd_pct = 0)) := by
  unfold distributeCoolingLoad
  dsimp only
  by_cases hn : (s.assignments.filter
      (fun x => x.unit.enable && ! x.unit.failed)).length = 0
  · rw [if_pos hn]
    exact ⟨a, h, rfl, rfl, rfl, rfl, fun _ => rfl, fun hc => absurd hn hc⟩
  · rw [if_neg hn]
    refine ⟨distributeTo (t / (s.assignments.filter
        (fun x => x.unit.enable && ! x.unit.failed)).length) a, ?_,
      distributeTo_role _ _, distributeTo_enable _ _,
      distributeTo_failed _ _, distributeTo_status _ _,
      fun hc => absurd hc hn, fun _ => ⟨?_, ?_⟩⟩
    · simp [List.getElem?_map, h]
    · intro he hf
      unfold distributeTo
      rw [if_pos (by simp [he, hf])]
    · intro hor
      unfold distributeTo
      rw [if_neg ?_]
      rcases hor with he | hf
      · simp [he]
      · simp [hf]

/-- The state fields of `_distribute_cooling_load` other than the
assignment list are untouched. -/
theorem distribute_state (s : CRACSequencer) (t : ℚ) :
    (distributeCoolingLoad s t).cfg = s.cfg ∧
    (distributeCoolingLoad s t).lag_staged = s.lag_staged ∧
    (distributeCoolingLoad s t).standby_staged = s.standby_staged ∧
    (distributeCoolingLoad s t).temp_error = s.temp_error ∧
    (distributeCoolingLoad s t).rotation_count = s.rotation_count := by
  unfold distributeCoolingLoad
  dsimp only
  split_ifs <;> exact ⟨rfl, rfl, rfl, rfl, rfl⟩

/-- One sequencer update after a LEAD failure in a LEAD/LAG/STANDBY
configuration enables the healthy STANDBY unit immediately, with no
staging delay involved. -/
theorem seq_failover3 (s : CRACSequencer) (dt sp m pid : ℚ)
    (a0 a1 a2 : CRACAssignment) (hsh : s.assignments = [a0, a1, a2])
    (r0 : a0.role = .lead) (r1 : a1.role = .lag) (r2 : a2.role = .standby)
    (hf0 : a0.unit.failed = true) (hf2 : a2.unit.failed = false)
    (hs2 : a2.unit.status ≠ .running) (hls : s.lag_staged = false)
    (hdel : 0 < s.cfg.staging_delay_s) :
    ∃ b2, (s.update dt sp m pid).assignments[2]? = some b2 ∧
      b2.role = .standby ∧ b2.unit.enable = true ∧
      b2.unit.failed = false := by
  unfold CRACSequencer.update processStagingLogic
  dsimp only
  set s1 : CRACSequencer :=
    { s with total_runtime_hours := s.total_runtime_hours + dt / 3600,
             setpoint_c := sp, current_temp_c := m,
             temp_error := |sp - m| } with hs1
  have hsh1 : (updateAssignmentTimers s1 dt (dt / 3600)).assignments =
      tickAssignment dt (dt / 3600) a0 :: tickAssignment dt (dt / 3600) a1 ::
      [tickAssignment dt (dt / 3600) a2] := by
    unfold updateAssignmentTimers
    simp [hs1, hsh]
  have hrot : handleRoleRotation (updateAssignmentTimers s1 dt (dt / 3600)) =
      updateAssignmentTimers s1 dt (dt / 3600) :=
    rot_noop_of_lead_failed _ _ _ hsh1 (by rw [tick_role]; exact r0)
      (by rw [tick_unit]; exact hf0)
  rw [hrot]
  obtain ⟨c0, hc0sh, hc0role, hc0failed, _, _, _, _, hel_ls, _, _, _⟩ :=
    enableLead_cons (updateAssignmentTimers s1 dt (dt / 3600)) _ _ hsh1
      (by rw [tick_role]; exact r0)
  have hel_cfg : (enableLead (updateAssignmentTimers s1 dt
      (dt / 3600))).cfg = s.cfg := by
    obtain ⟨_, _, _, _, _, _, _, hcfg, _, _, _, _⟩ :=
      enableLead_cons (updateAssignmentTimers s1 dt (dt / 3600)) _ _ hsh1
        (by rw [tick_role]; exact r0)
    exact hcfg
  obtain ⟨d1, hd1sh, hd1role, hd1unit, hlag_ls, _, _, _, _⟩ :=
    lagStaging_unstaged (enableLead (updateAssignmentTimers s1 dt (dt / 3600)))
      c0 (tickAssignment dt (dt / 3600) a1) _ hc0sh
      (by rw [hc0role]; decide) (by rw [tick_role]; exact r1)
      (by rw [hel_ls]; exact hls) (by rw [hel_cfg]; exact hdel)
  obtain ⟨hsb_sh, _, _, _⟩ :=
    standbyStaging_failover3 _ c0 d1 (tickAssignment dt (dt / 3600) a2)
      hd1sh hc0role hd1role (by rw [tick_role]; exact r2)
      (by rw [hc0failed, tick_unit]; exact hf0)
      (by rw [tick_unit]; exact hf2)
  obtain ⟨b, hbsh, hbrole, hbenable, hbfailed, hbstatus, _, _⟩ :=
    distribute_entry
      (standbyStaging (lagStaging (enableLead
        (updateAssignmentTimers s1 dt (dt / 3600))))) pid 2 _
      (by rw [hsb_sh]; rfl)
  refine ⟨stepAssignment dt b, ?_, ?_, ?_, ?_⟩
  · simp only [List.getElem?_map, hbsh, Option.map_some']
  · show (stepAssignment dt b).role = .standby
    simp [stepAssignment, hbrole, tick_role, r2]
  · show (stepAssignment dt b).unit.enable = true
    simp only [stepAssignment]
    rw [step_enable, hbenable]
    simp
  · show (stepAssignment dt b).unit.failed = false
    simp only [stepAssignment]
    refine step_failed_keep _ _ ?_ ?_
    · rw [hbfailed]
      simp [tick_unit, hf2]
    · rw [hbstatus]
      simp [tick_unit]
      exact hs2

/-!  Lemmas about role rotation and LEAD uniqueness. -/

theorem getElem?_set_ne' {α : Type} (l : List α) (i j : ℕ) (a : α)
    (hij : i ≠ j) : (l.set i a)[j]? = l[j]? := by
  induction l generalizing i j with
  | nil => simp
  | cons hd tl ihl =>
    cases i with
    | zero =>
      cases j with
      | zero => exact absurd rfl hij
      | succ j => simp
    | succ i =>
      cases j with
      | zero => simp
      | succ j => simpa using ihl i j (by omega)

theorem getElem?_set_self' {α : Type} (l : List α) (i : ℕ) (a b : α)
    (h : l[i]? = some b) : (l.set i a)[i]? = some a := by
  induction l generalizing i with
  | nil => simp at h
  | cons hd tl ihl =>
    cases i with
    | zero => simp
    | succ i => simpa using ihl i (by simpa using h)

theorem countP_set_eq {α : Type} (l : List α) (i : ℕ) (a b : α)
    (p : α → Bool) (h : l[i]? = some b) :
    (l.set i a).countP p + (if p b then 1 else 0) =
      l.countP p + (if p a then 1 else 0) := by
  induction l generalizing i with
  | nil => simp at h
  | cons hd tl ihl =>
    cases i with
    | zero =>
      rw [List.getElem?_cons_zero, Option.some.injEq] at h
      subst h
      simp only [List.set_cons_zero, List.countP_cons]
      omega
    | succ i =>
      rw [List.getElem?_cons_succ] at h
      simp only [List.set_cons_succ, List.countP_cons]
      have := ihl i h
      omega

/-- Specification of `findRoleIdx`: the returned index holds the role. -/
theorem findRoleIdx_some (as : List CRACAssignment) (r : CRACRole) (i : ℕ)
    (h : findRoleIdx as r = some i) :
    ∃ a, as[i]? = some a ∧ a.role = r := by
  induction as generalizing i with
  | nil => simp [findRoleIdx] at h
  | cons hd tl ihl =>
    unfold findRoleIdx at h
    split_ifs at h with hc
    · rw [Option.some.injEq] at h
      subst h
      exact ⟨hd, by simp, hc⟩
    · rcases ho : findRoleIdx tl r with _ | j
      · rw [ho] at h; simp at h
      · rw [ho] at h
        simp only [Option.map_some', Option.some.injEq] at h
        subst h
        obtain ⟨a, ha1, ha2⟩ := ihl j ho
        exact ⟨a, by simpa using ha1, ha2⟩

/-- Number of LEAD roles in an assignment list. -/
def countLead (as : List CRACAssignment) : ℕ :=
  as.countP (fun a => a.role == .lead)

theorem countLead_congr (as bs : List CRACAssignment)
    (h : rolesOf as = rolesOf bs) : countLead as = countLead bs := by
  unfold countLead
  have e1 : ∀ cs : List CRACAssignment,
      cs.countP (fun a => a.role == .lead) =
        (rolesOf cs).countP (· == CRACRole.lead) := by
    intro cs
    unfold rolesOf
    rw [List.countP_map]
    rfl
  rw [e1, e1, h]

theorem rolesOf_set (as : List CRACAssignment) (i : ℕ)
    (a b : CRACAssignment) (h : as[i]? = some b) (hr : a.role = b.role) :
    rolesOf (as.set i a) = rolesOf as := by
  induction as generalizing i with
  | nil => simp at h
  | cons hd tl ihl =>
    cases i with
    | zero =>
      rw [List.getElem?_cons_zero, Option.some.injEq] at h
      subst h
      simp [rolesOf, hr]
    | succ i =>
      rw [List.getElem?_cons_succ] at h
      simp only [List.set_cons_succ]
      simp [rolesOf] at ihl ⊢
      exact ihl i h

theorem rolesOf_map (f : CRACAssignment → CRACAssignment)
    (hf : ∀ a, (f a).role = a.role) (as : List CRACAssignment) :
    rolesOf (as.map f) = rolesOf as := by
  unfold rolesOf
  rw [List.map_map]
  exact List.map_congr_left fun a _ => hf a

theorem enableFirstStandby_roles (as as' : List CRACAssignment)
    (h : enableFirstStandby as = some as') : rolesOf as' = rolesOf as := by
  induction as generalizing as' with
  | nil => simp [enableFirstStandby] at h
  | cons hd tl ihl =>
    unfold enableFirstStandby at h
    split_ifs at h with hc
    · rw [Option.some.injEq] at h
      subst h
      simp [rolesOf]
    · rcases ho : enableFirstStandby tl with _ | bs
      · rw [ho] at h; simp at h
      · rw [ho] at h
        simp only [Option.map_some', Option.some.injEq] at h
        subst h
        simp [rolesOf] at ihl ⊢
        exact ihl bs ho

theorem tick_roles (dt dh : ℚ) (s : CRACSequencer) :
    rolesOf (updateAssignmentTimers s dt dh).assignments =
      rolesOf s.assignments :=
  rolesOf_map _ (tick_role dt dh) s.assignments

theorem enableLead_roles (s : CRACSequencer) :
    rolesOf (enableLead s).assignments = rolesOf s.assignments := by
  unfold enableLead
  rcases h1 : findRoleIdx s.assignments .lead with _ | i
  · rfl
  · dsimp only
    rcases h2 : s.assignments[i]? with _ | a
    · rfl
    · dsimp only
      split_ifs with h3
      · rfl
      · exact rolesOf_set _ _ _ _ h2 rfl

theorem lagStaging_roles (s : CRACSequencer) :
    rolesOf (lagStaging s).assignments = rolesOf s.assignments := by
  unfold lagStaging
  rcases h1 : findRoleIdx s.assignments .lag with _ | i
  · rfl
  · dsimp only
    rcases h2 : s.assignments[i]? with _ | a
    · rfl
    · dsimp only
      split_ifs <;>
        first
          | rfl
          | exact rolesOf_set _ _ _ _ h2 rfl

theorem standbyStaging_roles (s : CRACSequencer) :
    rolesOf (standbyStaging s).assignments = rolesOf s.assignments := by
  unfold standbyStaging
  dsimp only
  split_ifs with h1
  · rcases ho : enableFirstStandby s.assignments with _ | bs
    · rfl
    · exact enableFirstStandby_roles _ _ ho
  · exact rolesOf_map _ (fun a => by unfold disableStandby; split_ifs <;> rfl)
      s.assignments

theorem distribute_roles (s : CRACSequencer) (t : ℚ) :
    rolesOf (distributeCoolingLoad s t).assignments =
      rolesOf s.assignments := by
  unfold distributeCoolingLoad
  dsimp only
  split_ifs
  · rfl
  · exact rolesOf_map _ (distributeTo_role _) s.assignments

/-- A rotation swap (set LEAD entry to LAG, set LAG entry to LEAD)
preserves the number of LEAD assignments. -/
theorem countLead_swap (as : List CRACAssignment) (i j : ℕ)
    (leadA lagA : CRACAssignment) (hij : i ≠ j)
    (hi : as[i]? = some leadA) (hj : as[j]? = some lagA)
    (hri : leadA.role = .lead) (hrj : lagA.role = .lag) :
    countLead ((as.set i { leadA with role := .lag, assigned_time := 0 }).set
      j { lagA with role := .lead, assigned_time := 0 }) = countLead as := by
  have e1 := countP_set_eq as i { leadA with role := .lag, assigned_time := 0 }
    leadA (fun a => a.role == .lead) hi
  have hj' : (as.set i { leadA with role := .lag, assigned_time := 0 })[j]? =
      some lagA := by rw [getElem?_set_ne' _ _ _ _ hij]; exact hj
  have e2 := countP_set_eq
    (as.set i { leadA with role := .lag, assigned_time := 0 }) j
    { lagA with role := .lead, assigned_time := 0 } lagA
    (fun a => a.role == .lead) hj'
  simp only [hri, hrj] at e1 e2
  unfold countLead
  simp only [show (CRACRole.lead == CRACRole.lead) = true from rfl,
    show (CRACRole.lag == CRACRole.lead) = false from rfl] at e1 e2 ⊢
  omega

/-- Automatic role rotation preserves the number of LEAD assignments. -/
theorem handleRoleRotation_leadCount (s : CRACSequencer) :
    leadCount (handleRoleRotation s) = leadCount s := by
  unfold handleRoleRotation
  by_cases hrot : s.cfg.enable_rotation
  · rw [if_neg (by simp [hrot])]
    rcases h1 : findRoleIdx s.assignments .lead with _ | i
    · rfl
    · dsimp only
      rcases h2 : findRoleIdx s.assignments .lag with _ | j
      · rfl
      · dsimp only
        rcases h3 : s.assignments[i]? with _ | leadA
        · rfl
        · rcases h4 : s.assignments[j]? with _ | lagA
          · rfl
          · dsimp only
            split_ifs with h5 h6
            · obtain ⟨la, hla1, hla2⟩ := findRoleIdx_some _ _ _ h1
              obtain ⟨lb, hlb1, hlb2⟩ := findRoleIdx_some _ _ _ h2
              rw [h3, Option.some.injEq] at hla1
              rw [h4, Option.some.injEq] at hlb1
              subst hla1; subst hlb1
              have hij : i ≠ j := by
                intro he
                rw [he, h4, Option.some.injEq] at h3
                rw [h3] at hlb2
                rw [hla2] at hlb2
                exact absurd hlb2 (by decide)
              exact countLead_swap s.assignments i j leadA lagA hij h3 h4
                hla2 hlb2
            · rfl
            · rfl
  · rw [if_pos (by simp [hrot])]

/-- Forced role rotation preserves the number of LEAD assignments. -/
theorem forceRoleRotation_leadCount (s : CRACSequencer) :
    leadCount (forceRoleRotation s).1 = leadCount s := by
  unfold forceRoleRotation
  rcases h1 : findRoleIdx s.assignments .lead with _ | i
  · rfl
  · dsimp only
    rcases h2 : findRoleIdx s.assignments .lag with _ | j
    · rfl
    · dsimp only
      rcases h3 : s.assignments[i]? with _ | leadA
      · rfl
      · rcases h4 : s.assignments[j]? with _ | lagA
        · rfl
        · dsimp only
          split_ifs with h5
          · obtain ⟨la, hla1, hla2⟩ := findRoleIdx_some _ _ _ h1
            obtain ⟨lb, hlb1, hlb2⟩ := findRoleIdx_some _ _ _ h2
            rw [h3, Option.some.injEq] at hla1
            rw [h4, Option.some.injEq] at hlb1
            subst hla1; subst hlb1
            have hij : i ≠ j := by
              intro he
              rw [he, h4, Option.some.injEq] at h3
              rw [h3] at hlb2
              rw [hla2] at hlb2
              exact absurd hlb2 (by decide)
            exact countLead_swap s.assignments i j leadA lagA hij h3 h4
              hla2 hlb2
          · rfl

/-- A full sequencer update preserves the number of LEAD assignments. -/
theorem update_leadCount (s : CRACSequencer) (dt sp m pid : ℚ) :
    leadCount (s.update dt sp m pid) = leadCount s := by
  unfold CRACSequencer.update processStagingLogic
  dsimp only
  set s1 : CRACSequencer :=
    { s with total_runtime_hours := s.total_runtime_hours + dt / 3600,
             setpoint_c := sp, current_temp_c := m,
             temp_error := |sp - m| } with hs1
  have e6 : ∀ t : CRACSequencer,
      countLead (t.assignments.map (stepAssignment dt)) =
        countLead t.assignments :=
    fun t => countLead_congr _ _ (rolesOf_map (stepAssignment dt) (fun a => rfl) t.assignments)
  show countLead ((distributeCoolingLoad (standbyStaging (lagStaging
    (enableLead (handleRoleRotation (updateAssignmentTimers s1 dt
      (dt / 3600)))))) pid).assignments.map (stepAssignment dt)) = leadCount s
  rw [e6]
  rw [show ∀ t : CRACSequencer, ∀ q : ℚ,
    countLead (distributeCoolingLoad t q).assignments = countLead t.assignments
    from fun t q => countLead_congr _ _ (distribute_roles t q)]
  rw [countLead_congr _ _ (standbyStaging_roles _)]
  rw [countLead_congr _ _ (lagStaging_roles _)]
  rw [countLead_congr _ _ (enableLead_roles _)]
  rw [show countLead (handleRoleRotation (updateAssignmentTimers s1 dt
      (dt / 3600))).assignments = countLead (updateAssignmentTimers s1 dt
      (dt / 3600)).assignments
    from handleRoleRotation_leadCount _]
  rw [countLead_congr _ _ (tick_roles _ _ _)]
  rfl

/-- The constructor assigns LEAD only to index 0. -/
theorem initSequencer_leadCount (cracs : List CRACUnit)
    (cfg : StagingConfig) : leadCount (initSequencer cracs cfg) ≤ 1 := by
  have haux : ∀ (l : List CRACUnit) (i : ℕ), 1 ≤ i →
      countLead (initAssignments i l) = 0 := by
    intro l
    induction l with
    | nil => intro i _; rfl
    | cons hd tl ihl =>
      intro i hi
      unfold countLead initAssignments
      rw [List.countP_cons]
      have h0 := ihl (i + 1) (by omega)
      unfold countLead at h0
      rw [h0]
      have hne : initRole i ≠ .lead := by
        unfold initRole
        split_ifs with a b
        · omega
        · decide
        · decide
      simp [hne]
  unfold leadCount initSequencer
  cases cracs with
  | nil => simp [initAssignments]
  | cons hd tl =>
    unfold initAssignments
    rw [List.countP_cons]
    have h0 := haux tl 1 (by omega)
    unfold countLead at h0
    rw [h0]
    split_ifs <;> omega

/-- Forced rotation with both units healthy: it succeeds, atomically
swaps the two roles and zeroes both runtime counters. -/
theorem forceRotation_swap (s : CRACSequencer) (i j : ℕ)
    (leadA lagA : CRACAssignment)
    (h1 : findRoleIdx s.assignments .lead = some i)
    (h2 : findRoleIdx s.assignments .lag = some j)
    (h3 : s.assignments[i]? = some leadA)
    (h4 : s.assignments[j]? = some lagA)
    (hf1 : leadA.unit.failed = false) (hf2 : lagA.unit.failed = false) :
    (forceRoleRotation s).2 = true ∧
    (forceRoleRotation s).1.assignments[i]? =
      some { leadA with role := .lag, assigned_time := 0 } ∧
    (forceRoleRotation s).1.assignments[j]? =
      some { lagA with role := .lead, assigned_time := 0 } ∧
    (forceRoleRotation s).1.rotation_count = s.rotation_count + 1 := by
  have hij : i ≠ j := by
    obtain ⟨la, hla1, hla2⟩ := findRoleIdx_some _ _ _ h1
    obtain ⟨lb, hlb1, hlb2⟩ := findRoleIdx_some _ _ _ h2
    rw [h3, Option.some.injEq] at hla1
    rw [h4, Option.some.injEq] at hlb1
    subst hla1; subst hlb1
    intro he
    rw [he, h4, Option.some.injEq] at h3
    rw [h3] at hlb2
    rw [hla2] at hlb2
    exact absurd hlb2 (by decide)
  unfold forceRoleRotation
  rw [h1, h2]
  dsimp only
  rw [h3, h4]
  dsimp only
  rw [if_pos ⟨by simp [hf1], by simp [hf2]⟩]
  dsimp only
  refine ⟨rfl, ?_, ?_, rfl⟩
  · rw [getElem?_set_ne' _ _ _ _ (Ne.symm hij)]
    exact getElem?_set_self' _ _ _ _ h3
  · refine getElem?_set_self' _ _ _ lagA ?_
    rw [getElem?_set_ne' _ _ _ _ hij]
    exact h4

/-- Automatic rotation with the runtime threshold reached and both units
healthy and not STARTING: it atomically swaps the two roles and zeroes
both runtime counters. -/
theorem handleRotation_swap (s : CRACSequencer) (i j : ℕ)
    (leadA lagA : CRACAssignment) (hrot : s.cfg.enable_rotation = true)
    (h1 : findRoleIdx s.assignments .lead = some i)
    (h2 : findRoleIdx s.assignments .lag = some j)
    (h3 : s.assignments[i]? = some leadA)
    (h4 : s.assignments[j]? = some lagA)
    (hrt : leadA.assigned_time ≥ s.cfg.rotation_runtime_hours)
    (hf1 : leadA.unit.failed = false) (hf2 : lagA.unit.failed = false)
    (hs1 : leadA.unit.status ≠ .starting)
    (hs2 : lagA.unit.status ≠ .starting) :
    (handleRoleRotation s).assignments[i]? =
      some { leadA with role := .lag, assigned_time := 0 } ∧
    (handleRoleRotation s).assignments[j]? =
      some { lagA with role := .lead, assigned_time := 0 } ∧
    (handleRoleRotation s).rotation_count = s.rotation_count + 1 := by
  have hij : i ≠ j := by
    obtain ⟨la, hla1, hla2⟩ := findRoleIdx_some _ _ _ h1
    obtain ⟨lb, hlb1, hlb2⟩ := findRoleIdx_some _ _ _ h2
    rw [h3, Option.some.injEq] at hla1
    rw [h4, Option.some.injEq] at hlb1
    subst hla1; subst hlb1
    intro he
    rw [he, h4, Option.some.injEq] at h3
    rw [h3] at hlb2
    rw [hla2] at hlb2
    exact absurd hlb2 (by decide)
  unfold handleRoleRotation
  rw [if_neg (by simp [hrot])]
  rw [h1, h2]
  dsimp only
  rw [h3, h4]
  dsimp only
  rw [if_pos hrt, if_pos ⟨by simp [hf1], by simp [hf2], hs1, hs2⟩]
  dsimp only
  refine ⟨?_, ?_, rfl⟩
  · rw [getElem?_set_ne' _ _ _ _ (Ne.symm hij)]
    exact getElem?_set_self' _ _ _ _ h3
  · refine getElem?_set_self' _ _ _ lagA ?_
    rw [getElem?_set_ne' _ _ _ _ hij]
    exact h4

/-- If an automatic rotation happened, all the guard conditions held:
rotation enabled, LEAD runtime over the threshold, both units healthy,
neither STARTING. -/
theorem handleRotation_only_if (s : CRACSequencer)
    (h : (handleRoleRotation s).rotation_count ≠ s.rotation_count) :
    s.cfg.enable_rotation = true ∧ ∃ i j leadA lagA,
      findRoleIdx s.assignments .lead = some i ∧
      findRoleIdx s.assignments .lag = some j ∧
      s.assignments[i]? = some leadA ∧ s.assignments[j]? = some lagA ∧
      leadA.assigned_time ≥ s.cfg.rotation_runtime_hours ∧
      leadA.unit.failed = false ∧ lagA.unit.failed = false ∧
      leadA.unit.status ≠ .starting ∧ lagA.unit.status ≠ .starting := by
  unfold handleRoleRotation at h
  by_cases hrot : s.cfg.enable_rotation
  · rw [if_neg (by simp [hrot])] at h
    rcases h1 : findRoleIdx s.assignments .lead with _ | i
    · rw [h1] at h; exact absurd rfl h
    · rw [h1] at h
      rcases h2 : findRoleIdx s.assignments .lag with _ | j
      · rw [h2] at h; exact absurd rfl h
      · rw [h2] at h
        dsimp only at h
        rcases h3 : s.assignments[i]? with _ | leadA
        · rw [h3] at h; exact absurd rfl h
        · rcases h4 : s.assignments[j]? with _ | lagA
          · rw [h3, h4] at h; exact absurd rfl h
          · rw [h3, h4] at h
            dsimp only at h
            split_ifs at h with h5 h6
            · obtain ⟨hg1, hg2, hg3, hg4⟩ := h6
              exact ⟨hrot, i, j, leadA, lagA, rfl, rfl, h3, h4, h5,
                by simpa using hg1, by simpa using hg2, hg3, hg4⟩
            · exact absurd rfl h
            · exact absurd rfl h
  · rw [if_pos (by simp [hrot])] at h
    exact absurd rfl h

/-- If a forced rotation succeeded, both units were healthy. -/
theorem forceRotation_only_if (s : CRACSequencer)
    (h : (forceRoleRotation s).2 = true) :
    ∃ i j leadA lagA,
      findRoleIdx s.assignments .lead = some i ∧
      findRoleIdx s.assignments .lag = some j ∧
      s.assignments[i]? = some leadA ∧ s.assignments[j]? = some lagA ∧
      leadA.unit.failed = false ∧ lagA.unit.failed = false := by
  unfold forceRoleRotation at h
  rcases h1 : findRoleIdx s.assignments .lead with _ | i
  · rw [h1] at h; exact absurd h (by simp)
  · rw [h1] at h
    rcases h2 : findRoleIdx s.assignments .lag with _ | j
    · rw [h2] at h; exact absurd h (by simp)
    · rw [h2] at h
      dsimp only at h
      rcases h3 : s.assignments[i]? with _ | leadA
      · rw [h3] at h; exact absurd h (by simp)
      · rcases h4 : s.assignments[j]? with _ | lagA
        · rw [h3, h4] at h; exact absurd h (by simp)
        · rw [h3, h4] at h
          dsimp only at h
          split_ifs at h with h5
          obtain ⟨hg1, hg2⟩ := h5
          exact ⟨i, j, leadA, lagA, rfl, rfl, h3, h4,
            by simpa using hg1, by simpa using hg2⟩

/-!  Claims. -/

/-- C5 counterexample: a fresh unit (status OFF, not failed) stepped for
one hour loses one hour from its failure countdown, though the claim
says the countdown only moves while RUNNING. -/
theorem c5_counterexample :
    (initCRAC {}).status = .off ∧ (initCRAC {}).failed = false ∧
    (initCRAC {}).next_failure_hours = 8760 ∧
    ((initCRAC {}).step 3600).next_failure_hours = 8759 ∧
    (8759 : ℚ) ≠ 8760 := by
  refine ⟨rfl, rfl, rfl, ?_, by norm_num⟩
  rw [step_off_noen_eq _ _ rfl rfl rfl]
  norm_num [initCRAC]

/-- C5 (amended): `next_failure_hours` is decremented by `dt / 3600` on
every step of a non-failed unit, regardless of its status; only the
transition to FAILED additionally requires the unit to be RUNNING. -/
theorem c5_countdown (u : CRACUnit) (dt : ℚ) (h : u.failed = false) :
    (u.step dt).next_failure_hours = u.next_failure_hours - dt / 3600 := by
  unfold CRACUnit.step
  rw [acc_nf, cpc_nf, cco_nf, ust_nf, ufs_nf _ _ h]

/-- C5 witness: the amended countdown law evaluated on a fresh OFF unit. -/
theorem c5_countdown_witness :
    ((initCRAC {}).step 3600).next_failure_hours =
      (initCRAC {}).next_failure_hours - 3600 / 3600 :=
  c5_countdown (initCRAC {}) 3600 rfl

/-- C9: a unit that is STOPPING, re-enabled and healthy never leaves the
STOPPING state: every number of further steps keeps the status STOPPING,
leaves the shutdown transition timer untouched, keeps it healthy, and
(after at least one step) produces zero cooling. -/
theorem c9_stopping_latched (u : CRACUnit) (dt : ℚ) (hf : u.failed = false)
    (he : u.enable = true) (hs : u.status = .stopping) (n : ℕ) :
    (stepN u dt n).failed = false ∧ (stepN u dt n).enable = true ∧
    (stepN u dt n).status = .stopping ∧
    (stepN u dt n).transition_timer_s = u.transition_timer_s ∧
    (1 ≤ n → (stepN u dt n).q_cool_kw = 0) := by
  induction n with
  | zero => exact ⟨hf, he, hs, rfl, by omega⟩
  | succ n ih =>
    obtain ⟨h1, h2, h3, h4, _⟩ := ih
    have hstep := step_stopping_eq (stepN u dt n) dt h1 h2 h3
    refine ⟨?_, ?_, ?_, ?_, ?_⟩ <;>
      simp [stepN, hstep, h1, h2, h3, h4]

/-- C9 witness: the STOPPING latch evaluated on a concrete unit. -/
theorem c9_stopping_latched_witness :
    (stepN c9u 10 3).failed = false ∧ (stepN c9u 10 3).enable = true ∧
    (stepN c9u 10 3).status = .stopping ∧
    (stepN c9u 10 3).transition_timer_s = c9u.transition_timer_s ∧
    (1 ≤ 3 → (stepN c9u 10 3).q_cool_kw = 0) :=
  c9_stopping_latched c9u 10 rfl rfl rfl 3

/-- C7: forcing a failure puts the unit in FAILED immediately; on the very
next sequencer update the healthy STANDBY unit's enable flag is true (no
staging delay); and the unit forced to fail for 1 hour stays FAILED while
the cumulative stepped time is below 3600 s and is back to OFF at exactly
3600 s. -/
theorem c7_failover_and_recovery :
    (∀ (u : CRACUnit) (d : ℚ), (forceFailure u (some d)).status = .failed ∧
      (forceFailure u (some d)).failed = true) ∧
    (∃ b2, c7seq1.assignments[2]? = some b2 ∧ b2.role = .standby ∧
      b2.unit.enable = true ∧ b2.unit.failed = false) ∧
    (∀ (dt : ℚ) (k : ℕ), 0 < dt →
      ((k : ℚ) * dt < 3600 → (stepN c7lead dt k).status = .failed) ∧
      ((k : ℚ) * dt = 3600 → (stepN c7lead dt k).status = .off)) := by
  refine ⟨fun u d => ⟨rfl, rfl⟩, ?_, fun dt k hdt => ⟨?_, ?_⟩⟩
  · exact seq_failover3 c7seq0 1 22 22 50 _ _ _ rfl rfl rfl rfl rfl rfl
      (by intro h; exact nomatch h) rfl (by norm_num [c7seq0, initSequencer])
  · exact fun hk => (c7_failed_inv dt hdt k hk).2.1
  · exact fun hk => (c7_repaired dt hdt k hk).1

/-- C7 witness: the recovery timeline evaluated at `dt = 100` and
`k = 36` steps, i.e. exactly 3600 simulated seconds. -/
theorem c7_failover_witness : (stepN c7lead 100 36).status = .off :=
  (c7_failover_and_recovery.2.2 100 36 (by norm_num)).2 (by norm_num)

/-- One zero-cooling step of a room in equilibrium with its ambient,
zero IT load and temperature inside the safety band keeps the
temperature unchanged. -/
theorem room_step_temp_fixed (r : Room) (dt : ℚ) (hl : r.it_load_kw = 0)
    (ha : r.ambient_temp_c = r.temp_c) (hmin : r.min_temp_c ≤ r.temp_c)
    (hmax : r.temp_c ≤ r.max_temp_c) :
    (r.step dt 0).temp_c = r.temp_c := by
  unfold Room.step
  dsimp only
  rw [hl, ha]
  norm_num
  rw [min_eq_right hmax, max_eq_right hmin]

/-- `Room.step` changes none of the inputs of the thermal balance. -/
theorem room_step_frame (r : Room) (dt q : ℚ) :
    (r.step dt q).it_load_kw = r.it_load_kw ∧
    (r.step dt q).ambient_temp_c = r.ambient_temp_c ∧
    (r.step dt q).min_temp_c = r.min_temp_c ∧
    (r.step dt q).max_temp_c = r.max_temp_c ∧
    (r.step dt q).cfg = r.cfg ∧
    (r.step dt q).infil_ua_kw_per_c = r.infil_ua_kw_per_c :=
  ⟨rfl, rfl, rfl, rfl, rfl, rfl⟩

/-- Iterating zero-cooling steps of an equilibrated in-band room fixes
the whole thermal state. -/
theorem roomStepN_temp_fixed (r : Room) (dt : ℚ) (hl : r.it_load_kw = 0)
    (ha : r.ambient_temp_c = r.temp_c) (hmin : r.min_temp_c ≤ r.temp_c)
    (hmax : r.temp_c ≤ r.max_temp_c) (n : ℕ) :
    (roomStepN r dt 0 n).temp_c = r.temp_c ∧
    (roomStepN r dt 0 n).it_load_kw = r.it_load_kw ∧
    (roomStepN r dt 0 n).ambient_temp_c = r.ambient_temp_c ∧
    (roomStepN r dt 0 n).min_temp_c = r.min_temp_c ∧
    (roomStepN r dt 0 n).max_temp_c = r.max_temp_c := by
  induction n with
  | zero => exact ⟨rfl, rfl, rfl, rfl, rfl⟩
  | succ n ih =>
    obtain ⟨h1, h2, h3, h4, h5⟩ := ih
    refine ⟨?_, ?_, ?_, ?_, ?_⟩
    · show ((roomStepN r dt 0 n).step dt 0).temp_c = r.temp_c
      rw [room_step_temp_fixed _ _ (by rw [h2, hl]) (by rw [h3, ha, h1])
        (by rw [h4, h1]; exact hmin) (by rw [h5, h1]; exact hmax), h1]
    · show ((roomStepN r dt 0 n).step dt 0).it_load_kw = r.it_load_kw
      rw [(room_step_frame _ _ _).1, h2]
    · show ((roomStepN r dt 0 n).step dt 0).ambient_temp_c = r.ambient_temp_c
      rw [(room_step_frame _ _ _).2.1, h3]
    · show ((roomStepN r dt 0 n).step dt 0).min_temp_c = r.min_temp_c
      rw [(room_step_frame _ _ _).2.2.1, h4]
    · show ((roomStepN r dt 0 n).step dt 0).max_temp_c = r.max_temp_c
      rw [(room_step_frame _ _ _).2.2.2.1, h5]

/-- C10 counterexample: a room with zero IT load whose temperature
equals ambient but sits at 50 °C, above the 40 °C safety clamp, has its
temperature changed to 40 °C by a single `step(dt, 0)`. -/
theorem c10_counterexample :
    c10r.it_load_kw = 0 ∧ c10r.ambient_temp_c = c10r.temp_c ∧
    c10r.temp_c = 50 ∧ (c10r.step 1 0).temp_c = 40 ∧ (40 : ℚ) ≠ 50 := by
  refine ⟨rfl, rfl, rfl, ?_, by norm_num⟩
  norm_num [Room.step, c10r]

/-- C10 (amended): repeated `step(dt, 0)` calls with zero IT load and
ambient equal to the room temperature leave the temperature unchanged
for every dt > 0, positive thermal mass and any conductances, provided
the temperature lies within the [min_temp_c, max_temp_c] safety band
(the clamp moves any temperature outside that band). -/
theorem c10_zero_input_fixed_point (r : Room) (dt : ℚ) (n : ℕ)
    (hl : r.it_load_kw = 0) (ha : r.ambient_temp_c = r.temp_c)
    (hmin : r.min_temp_c ≤ r.temp_c) (hmax : r.temp_c ≤ r.max_temp_c)
    (_hmass : 0 < r.cfg.thermal_mass_kj_per_c) (_hdt : 0 < dt) :
    (roomStepN r dt 0 n).temp_c = r.temp_c :=
  (roomStepN_temp_fixed r dt hl ha hmin hmax n).1

/-- C10 witness: the amended fixed-point law evaluated on a concrete
in-band equilibrated room. -/
theorem c10_zero_input_witness :
    (roomStepN (initRoom { initial_temp_c := 22, ambient_temp_c := 22, it_load_kw := 0 }) 1 0 3).temp_c =
      (initRoom { initial_temp_c := 22, ambient_temp_c := 22, it_load_kw := 0 }).temp_c :=
  c10_zero_input_fixed_point _ 1 3 rfl rfl (by norm_num [initRoom])
    (by norm_num [initRoom]) (by norm_num [initRoom]) (by norm_num)

/-- C4 counterexample: with `ki = 0` and an update whose raw output 200
is reduced by the clamp to 100, the back-calculation guard is false (the
source guards it with `ki != 0`), so no division by zero is reached and
the integral accumulator is left unchanged. -/
theorem c4_counterexample :
    c4p.cfg.ki = 0 ∧ (c4p.update 0 2 1).2 = 100 ∧
    c4p.cfg.kp * (2 - 0) = 200 ∧ (100 : ℚ) ≠ 200 ∧
    backCalcApplies c4p.cfg.ki 200 100 = false ∧
    (c4p.update 0 2 1).1.integral = c4p.integral := by
  refine ⟨rfl, ?_, by norm_num [c4p, initPID], by norm_num, ?_, ?_⟩
  · norm_num [c4p, initPID, PIDState.update, clampQ, rateLimitQ,
      backCalcApplies]
  · norm_num [c4p, initPID, backCalcApplies]
  · norm_num [c4p, initPID, PIDState.update, clampQ, rateLimitQ,
      backCalcApplies]

/-- C4 (amended): the anti-windup back-calculation is guarded by
`ki != 0` as well as by output saturation, so a controller with
`ki == 0` never reaches the division: the integral after `update` is
exactly the clamped accumulation (with the `±1000` fallback clamp),
untouched by any back-calculation. -/
theorem c4_backcalc_guarded (p : PIDState) (sp m dt : ℚ)
    (h : p.cfg.ki = 0) :
    (p.update sp m dt).1.integral =
      (if p.first_update = true then p.integral
       else max (-1000) (min 1000 (p.integral + (m - sp) * dt))) := by
  by_cases hf : p.first_update <;>
    simp [PIDState.update, backCalcApplies, h, hf]

/-- C4 witness: the guarded-integral law evaluated on the concrete
`ki = 0` controller. -/
theorem c4_backcalc_witness :
    (c4p.update 0 2 1).1.integral =
      (if c4p.first_update = true then c4p.integral
       else max (-1000) (min 1000 (c4p.integral + (2 - 0) * 1))) :=
  c4_backcalc_guarded c4p 0 2 1 rfl

/-- C6 counterexample: one enabled healthy unit and a total request of
150 % yields `cmd_pct = 100`, not the claimed `total / count = 150`. -/
theorem c6_counterexample :
    (c6s.assignments.map fun a => (a.unit.enable, a.unit.failed)) =
      [(true, false)] ∧
    (150 : ℚ) / 1 = 150 ∧ (100 : ℚ) ≠ 150 ∧
    ∃ b, (distributeCoolingLoad c6s 150).assignments[0]? = some b ∧
      b.unit.cmd_pct = 100 := by
  refine ⟨rfl, by norm_num, by norm_num, ?_⟩
  obtain ⟨b, h1, _, _, _, _, _, h7⟩ := distribute_entry c6s 150 0 _ rfl
  refine ⟨b, h1, ?_⟩
  rw [(h7 (by norm_num [c6s])).1 rfl rfl]
  norm_num [c6s]

/-- C6 (amended): when at least one unit is enabled and non-failed, each
such unit receives `min(100, total / enabledCount)` — the equal share is
capped at 100 % — and every other unit receives 0; when no unit is
enabled and non-failed, the distribution leaves the sequencer (and in
particular every stale `cmd_pct`) unchanged. -/
theorem c6_distribution (s : CRACSequencer) (total : ℚ) :
    (((s.assignments.filter
        (fun x => x.unit.enable && ! x.unit.failed)).length = 0 →
      distributeCoolingLoad s total = s) ∧
     ∀ (i : ℕ) (a : CRACAssignment), s.assignments[i]? = some a →
      (s.assignments.filter
        (fun x => x.unit.enable && ! x.unit.failed)).length ≠ 0 →
      ∃ b, (distributeCoolingLoad s total).assignments[i]? = some b ∧
        b.role = a.role ∧ b.unit.enable = a.unit.enable ∧
        b.unit.failed = a.unit.failed ∧
        (a.unit.enable = true → a.unit.failed = false →
          b.unit.cmd_pct = min 100 (total / (s.assignments.filter
            (fun x => x.unit.enable && ! x.unit.failed)).length)) ∧
        ((a.unit.enable = false ∨ a.unit.failed = true) →
          b.unit.cmd_pct = 0)) := by
  constructor
  · intro h
    unfold distributeCoolingLoad
    dsimp only
    rw [if_pos h]
  · intro i a ha hnz
    obtain ⟨b, h1, h2, h3, h4, _, _, h7⟩ := distribute_entry s total i a ha
    exact ⟨b, h1, h2, h3, h4, fun he hf => (h7 hnz).1 he hf,
      fun hor => (h7 hnz).2 hor⟩

/-- `_distribute_cooling_load` on a two-assignment list: shape, roles
and enable flags are preserved. -/
theorem distribute_shape2 (s : CRACSequencer) (t : ℚ)
    (x0 x1 : CRACAssignment) (hsh : s.assignments = [x0, x1]) :
    ∃ y0 y1, (distributeCoolingLoad s t).assignments = [y0, y1] ∧
      y0.role = x0.role ∧ y1.role = x1.role ∧
      y0.unit.enable = x0.unit.enable ∧ y1.unit.enable = x1.unit.enable := by
  unfold distributeCoolingLoad
  dsimp only
  split_ifs
  · exact ⟨x0, x1, hsh, rfl, rfl, rfl, rfl⟩
  · rw [hsh]
    exact ⟨_, _, rfl, distributeTo_role _ _, distributeTo_role _ _,
      distributeTo_enable _ _, distributeTo_enable _ _⟩

/-- One full sequencer update on a rotation-disabled two-unit (LEAD,
LAG) sequencer with a positive staging delay never sets the disabled
LAG unit's enable flag and never sets `lag_staged`: the invariant of
claim C1 is preserved by every update, whatever the inputs. -/
theorem c1_inv_step (s : CRACSequencer) (dt sp m pid : ℚ)
    (hrot : s.cfg.enable_rotation = false)
    (hdel : 0 < s.cfg.staging_delay_s) (hls : s.lag_staged = false)
    (a0 a1 : CRACAssignment) (hsh : s.assignments = [a0, a1])
    (r0 : a0.role = .lead) (r1 : a1.role = .lag)
    (hen : a1.unit.enable = false) :
    ∃ b0 b1, (s.update dt sp m pid).assignments = [b0, b1] ∧
      b0.role = .lead ∧ b1.role = .lag ∧ b1.unit.enable = false ∧
      (s.update dt sp m pid).lag_staged = false ∧
      (s.update dt sp m pid).cfg = s.cfg ∧
      (s.update dt sp m pid).temp_error = |sp - m| := by
  unfold CRACSequencer.update processStagingLogic
  dsimp only
  set s1 : CRACSequencer :=
    { s with total_runtime_hours := s.total_runtime_hours + dt / 3600,
             setpoint_c := sp, current_temp_c := m,
             temp_error := |sp - m| } with hs1
  have hsh1 : (updateAssignmentTimers s1 dt (dt / 3600)).assignments =
      [tickAssignment dt (dt / 3600) a0, tickAssignment dt (dt / 3600) a1] := by
    unfold updateAssignmentTimers
    simp [hs1, hsh]
  rw [rot_skip _ (show (updateAssignmentTimers s1 dt
    (dt / 3600)).cfg.enable_rotation = false from hrot)]
  obtain ⟨c0, hc0sh, hc0role, _, _, _, _, hel_cfg, hel_ls, _, hel_te, _⟩ :=
    enableLead_cons (updateAssignmentTimers s1 dt (dt / 3600)) _ _ hsh1
      (by rw [tick_role]; exact r0)
  obtain ⟨d1, hd1sh, hd1role, hd1unit, hlag_ls, hlag_cfg, _, hlag_te, _⟩ :=
    lagStaging_unstaged (enableLead (updateAssignmentTimers s1 dt (dt / 3600)))
      c0 (tickAssignment dt (dt / 3600) a1) [] hc0sh
      (by rw [hc0role]; decide) (by rw [tick_role]; exact r1)
      (by rw [hel_ls]; exact hls) (by rw [hel_cfg]; exact hdel)
  obtain ⟨hsb_sh, hsb_ls, hsb_cfg, hsb_te, _⟩ :=
    standbyStaging_nostandby2
      (lagStaging (enableLead (updateAssignmentTimers s1 dt (dt / 3600))))
      c0 d1 hd1sh (by rw [hc0role]; decide) (by rw [hd1role]; decide)
  obtain ⟨y0, y1, hysh, hy0role, hy1role, _, hy1en⟩ :=
    distribute_shape2
      (standbyStaging (lagStaging (enableLead
        (updateAssignmentTimers s1 dt (dt / 3600))))) pid c0 d1 hsb_sh
  obtain ⟨hd_cfg, hd_ls, _, hd_te, _⟩ :=
    distribute_state
      (standbyStaging (lagStaging (enableLead
        (updateAssignmentTimers s1 dt (dt / 3600))))) pid
  refine ⟨stepAssignment dt y0, stepAssignment dt y1, ?_, ?_, ?_, ?_, ?_,
    ?_, ?_⟩
  · rw [hysh]
    rfl
  · rw [show (stepAssignment dt y0).role = y0.role from rfl, hy0role, hc0role]
  · rw [show (stepAssignment dt y1).role = y1.role from rfl, hy1role, hd1role]
  · show (y1.unit.step dt).enable = false
    rw [step_enable, hy1en, hd1unit, tick_unit]
    exact hen
  · show (distributeCoolingLoad _ pid).lag_staged = false
    rw [hd_ls, hsb_ls, hlag_ls]
  · show (distributeCoolingLoad _ pid).cfg = s.cfg
    rw [hd_cfg, hsb_cfg, hlag_cfg, hel_cfg]
    rfl
  · show (distributeCoolingLoad _ pid).temp_error = |sp - m|
    rw [hd_te, hsb_te, hlag_te, hel_te]
    rfl

/-- The C1 scenario invariant, by induction over the run: the LAG unit
of `c1iter` is never enabled, the sequencer never records the LAG as
staged, the configuration is constant and (after the first update) the
temperature error is pinned at 2 °C. -/
theorem c1_invariant_all (n : ℕ) :
    (∃ b0 b1, (c1iter n).assignments = [b0, b1] ∧ b0.role = .lead ∧
      b1.role = .lag ∧ b1.unit.enable = false) ∧
    (c1iter n).lag_staged = false ∧ (c1iter n).cfg = c1cfg ∧
    (1 ≤ n → (c1iter n).temp_error = 2) := by
  induction n with
  | zero => exact ⟨⟨_, _, rfl, rfl, rfl, rfl⟩, rfl, rfl, by omega⟩
  | succ n ih =>
    obtain ⟨⟨b0, b1, hsh, hr0, hr1, hen⟩, hls, hcfg, _⟩ := ih
    obtain ⟨c0, c1a, hsh2, hr02, hr12, hen2, hls2, hcfg2, hte2⟩ :=
      c1_inv_step (c1iter n) 1 22 24 100
        (by rw [hcfg]; rfl) (by rw [hcfg]; norm_num [c1cfg])
        hls b0 b1 hsh hr0 hr1 hen
    refine ⟨⟨c0, c1a, hsh2, hr02, hr12, hen2⟩, hls2, ?_, fun _ => ?_⟩
    · show ((c1iter n).update 1 22 24 100).cfg = c1cfg
      rw [hcfg2, hcfg]
    · show ((c1iter n).update 1 22 24 100).temp_error = 2
      rw [hte2]
      norm_num

/-- Timer behavior of a whole `_process_staging_logic` call on a
two-unit (LEAD, LAG) sequencer whose LAG timers are idle. -/
theorem processStaging_two_unit_timers (s : CRACSequencer)
    (a0 a1 : CRACAssignment) (hsh : s.assignments = [a0, a1])
    (r0 : a0.role = .lead) (r1 : a1.role = .lag)
    (hf : a1.unit.failed = false) (hst : a1.staging_timer_s = 0)
    (hdt : a1.destaging_timer_s = 0) (hd1 : 0 < s.cfg.staging_delay_s)
    (hd2 : 0 < s.cfg.destaging_delay_s) :
    ∃ d1, (processStagingLogic s).assignments[1]? = some d1 ∧
      (s.lag_staged = false →
        d1.staging_timer_s = (if s.cfg.temp_error_threshold ≤ s.temp_error
          then s.cfg.staging_delay_s else 0)) ∧
      (s.lag_staged = true →
        d1.destaging_timer_s = (if s.temp_error + s.cfg.staging_hysteresis <
            s.cfg.temp_error_threshold - s.cfg.destaging_hysteresis
          then s.cfg.destaging_delay_s else 0)) := by
  unfold processStagingLogic
  obtain ⟨c0, hc0sh, hc0role, _, _, _, _, hel_cfg, hel_ls, _, hel_te, _⟩ :=
    enableLead_cons s a0 [a1] hsh r0
  obtain ⟨d1, hd1sh, hd1role, harm1, harm2⟩ :=
    lagStaging_arm (enableLead s) c0 a1 [] hc0sh
      (by rw [hc0role]; decide) r1 hf hst hdt
      (by rw [hel_cfg]; exact hd1) (by rw [hel_cfg]; exact hd2)
  obtain ⟨hsb_sh, _, _, _, _⟩ :=
    standbyStaging_nostandby2 (lagStaging (enableLead s)) c0 d1 hd1sh
      (by rw [hc0role]; decide) (by rw [hd1role]; decide)
  refine ⟨d1, by rw [hsb_sh]; rfl, ?_, ?_⟩
  · intro h
    have := harm1 (by rw [hel_ls]; exact h)
    rwa [hel_cfg, hel_te] at this
  · intro h
    have := harm2 (by rw [hel_ls]; exact h)
    rwa [hel_cfg, hel_te] at this

/-- C1: in the scenario with a constant 2 °C temperature error — at or
above the 1 °C staging threshold on every one of the first `n` updates —
the LAG unit's enable flag is still false after every number of updates,
far beyond the 300 s staging delay, and the sequencer never marks the
LAG as staged: the staging-timer re-arm (`if staging_timer_s <= 0` both
arms the timer and gates the enable) prevents the delay from ever
elapsing, so the enable never takes effect. -/
theorem c1_lag_never_enabled (n : ℕ) :
    (∃ b0 b1, (c1iter n).assignments = [b0, b1] ∧ b0.role = .lead ∧
      b1.role = .lag ∧ b1.unit.enable = false) ∧
    (c1iter n).lag_staged = false ∧
    (c1iter (n + 1)).temp_error = 2 ∧
    (c1iter (n + 1)).cfg.temp_error_threshold = 1 ∧
    (c1iter (n + 1)).cfg.staging_delay_s = 300 := by
  obtain ⟨hsh, hls, _, _⟩ := c1_invariant_all n
  obtain ⟨_, _, hcfg1, hte1⟩ := c1_invariant_all (n + 1)
  exact ⟨hsh, hls, hte1 (by omega), by rw [hcfg1]; rfl, by rw [hcfg1]; rfl⟩

/-- C2: for every controller configuration with a well-formed output
interval and a nonnegative rate limit, and every input sequence with
positive timesteps, every returned output lies within
`[output_min, output_max]`, and consecutive outputs differ by at most
`rate_limit * dt` of the later call. -/
theorem c2_pid_bounds_and_rate (cfg : PIDConfig)
    (inputs : List (ℚ × ℚ × ℚ)) (hb : cfg.output_min ≤ cfg.output_max)
    (hr : 0 ≤ cfg.rate_limit) (hdt : ∀ x ∈ inputs, 0 < x.2.2) :
    (∀ o ∈ pidOutputs cfg inputs, cfg.output_min ≤ o ∧ o ≤ cfg.output_max) ∧
    (∀ (i : ℕ) (a b : ℚ) (x : ℚ × ℚ × ℚ),
      (pidOutputs cfg inputs)[i]? = some a →
      (pidOutputs cfg inputs)[i + 1]? = some b → inputs[i + 1]? = some x →
      |b - a| ≤ cfg.rate_limit * x.2.2) :=
  pidRun_spec inputs (initPID cfg) hb hr hdt (Or.inl rfl)

/-- C2 witness: the bounds and rate law evaluated at the default
configuration on a two-call input sequence. -/
theorem c2_pid_bounds_witness :
    (∀ o ∈ pidOutputs {} [(22, 24, 1), (22, 24, 1)],
      PIDConfig.output_min {} ≤ o ∧ o ≤ PIDConfig.output_max {}) ∧
    (∀ (i : ℕ) (a b : ℚ) (x : ℚ × ℚ × ℚ),
      (pidOutputs {} [(22, 24, 1), (22, 24, 1)])[i]? = some a →
      (pidOutputs {} [(22, 24, 1), (22, 24, 1)])[i + 1]? = some b →
      ([((22 : ℚ), (24 : ℚ), (1 : ℚ)), (22, 24, 1)])[i + 1]? = some x →
      |b - a| ≤ PIDConfig.rate_limit {} * x.2.2) :=
  c2_pid_bounds_and_rate {} [(22, 24, 1), (22, 24, 1)] (by norm_num)
    (by norm_num) (by intro x hx; fin_cases hx <;> norm_num)

/-- C3 counterexample: in an unstaged sequencer with the default
configuration (threshold 1 °C, staging hysteresis 0.2 °C) and a
temperature error of exactly 1 °C — which does not exceed
`threshold + staging_hysteresis = 1.2` — the staging process
nevertheless begins: the staging timer is armed to 300 s. -/
theorem c3_counterexample :
    c3s.lag_staged = false ∧ c3s.temp_error = 1 ∧
    c3s.cfg.temp_error_threshold = 1 ∧ c3s.cfg.staging_hysteresis = 1/5 ∧
    ¬ (c3s.temp_error > c3s.cfg.temp_error_threshold +
        c3s.cfg.staging_hysteresis) ∧
    ∃ d1, (processStagingLogic c3s).assignments[1]? = some d1 ∧
      d1.staging_timer_s = 300 := by
  refine ⟨rfl, rfl, rfl, rfl, by norm_num [c3s], ?_⟩
  obtain ⟨d1, hget, harm, _⟩ :=
    processStaging_two_unit_timers c3s _ _ rfl rfl rfl rfl rfl rfl
      (by norm_num [c3s]) (by norm_num [c3s])
  refine ⟨d1, hget, ?_⟩
  rw [harm rfl, if_pos (by norm_num [c3s])]
  rfl

/-- C3 (amended): on a two-unit sequencer with idle LAG timers and a
healthy LAG, staging begins (the staging timer is armed) exactly when
the sequencer is unstaged and `temp_error ≥ temp_error_threshold` — no
staging hysteresis is added while unstaged; destaging begins exactly
when staged and `temp_error < temp_error_threshold -
destaging_hysteresis - staging_hysteresis` — the staging hysteresis is
added to the error while staged. -/
theorem c3_staging_condition (s : CRACSequencer) (a0 a1 : CRACAssignment)
    (hsh : s.assignments = [a0, a1]) (r0 : a0.role = .lead)
    (r1 : a1.role = .lag) (hf : a1.unit.failed = false)
    (hst : a1.staging_timer_s = 0) (hdt : a1.destaging_timer_s = 0)
    (hd1 : 0 < s.cfg.staging_delay_s) (hd2 : 0 < s.cfg.destaging_delay_s) :
    ∃ d1, (processStagingLogic s).assignments[1]? = some d1 ∧
      (s.lag_staged = false →
        (d1.staging_timer_s = s.cfg.staging_delay_s ↔
          s.cfg.temp_error_threshold ≤ s.temp_error)) ∧
      (s.lag_staged = true →
        (d1.destaging_timer_s = s.cfg.destaging_delay_s ↔
          s.temp_error + s.cfg.staging_hysteresis <
            s.cfg.temp_error_threshold - s.cfg.destaging_hysteresis)) := by
  obtain ⟨d1, hget, harm1, harm2⟩ :=
    processStaging_two_unit_timers s a0 a1 hsh r0 r1 hf hst hdt hd1 hd2
  refine ⟨d1, hget, fun h => ?_, fun h => ?_⟩
  · rw [harm1 h]
    constructor
    · intro he
      by_contra hc
      rw [if_neg hc] at he
      exact absurd he.symm (ne_of_gt hd1)
    · intro hc
      rw [if_pos hc]
  · rw [harm2 h]
    constructor
    · intro he
      by_contra hc
      rw [if_neg hc] at he
      exact absurd he.symm (ne_of_gt hd2)
    · intro hc
      rw [if_pos hc]

/-- C3 witness: the staging-begin condition evaluated on the concrete
unstaged sequencer whose error sits exactly at the threshold. -/
theorem c3_staging_condition_witness :
    ∃ d1, (processStagingLogic c3s).assignments[1]? = some d1 ∧
      (c3s.lag_staged = false →
        (d1.staging_timer_s = c3s.cfg.staging_delay_s ↔
          c3s.cfg.temp_error_threshold ≤ c3s.temp_error)) ∧
      (c3s.lag_staged = true →
        (d1.destaging_timer_s = c3s.cfg.destaging_delay_s ↔
          c3s.temp_error + c3s.cfg.staging_hysteresis <
            c3s.cfg.temp_error_threshold - c3s.cfg.destaging_hysteresis)) :=
  c3_staging_condition c3s _ _ rfl rfl rfl rfl rfl rfl
    (by norm_num [c3s]) (by norm_num [c3s])

/-- C6 witness: the capped-share law evaluated at the single-unit
sequencer with a 150 % request. -/
theorem c6_distribution_witness :
    ∃ b, (distributeCoolingLoad c6s 150).assignments[0]? = some b ∧
      b.role = (⟨{ cfg := {}, enable := true }, .lead, 0, 0, 0⟩ :
        CRACAssignment).role ∧
      b.unit.enable = true ∧ b.unit.failed = false ∧
      (True → True → b.unit.cmd_pct = min 100 ((150 : ℚ) /
        (c6s.assignments.filter
          (fun x => x.unit.enable && ! x.unit.failed)).length)) := by
  obtain ⟨b, h1, h2, h3, h4, h5, _⟩ :=
    (c6_distribution c6s 150).2 0 _ rfl (by norm_num [c6s])
  exact ⟨b, h1, h2, h3, h4, fun _ _ => h5 rfl rfl⟩

/-- C8 counterexample: `force_role_rotation` does not check for STARTING.
On `c8s` the LEAD unit is healthy but mid-transition (status STARTING),
yet the forced rotation succeeds and swaps the roles, violating the
claim that rotation occurs only when neither unit is mid-transition. -/
theorem c8_counterexample :
    rolesOf c8s.assignments = [.lead, .lag] ∧
    (c8s.assignments[0]?.map CRACAssignment.unit).map CRACUnit.status =
      some .starting ∧
    (c8s.assignments[0]?.map CRACAssignment.unit).map CRACUnit.failed =
      some false ∧
    (c8s.assignments[1]?.map CRACAssignment.unit).map CRACUnit.failed =
      some false ∧
    (forceRoleRotation c8s).2 = true ∧
    (forceRoleRotation c8s).1.assignments[0]?.map CRACAssignment.role =
      some .lag ∧
    (forceRoleRotation c8s).1.assignments[1]?.map CRACAssignment.role =
      some .lead ∧
    (forceRoleRotation c8s).1.rotation_count = c8s.rotation_count + 1 :=
  ⟨rfl, rfl, rfl, rfl, rfl, rfl, rfl, rfl⟩

/-- C8: at most one assignment holds LEAD at construction and this is
preserved by every `update` and by `force_role_rotation`; a rotation
event (automatic or forced) atomically swaps the LEAD and LAG roles and
zeroes both runtime counters within the single call; an automatic
rotation occurs only when rotation is enabled, the LEAD runtime has
reached the threshold, both units are healthy and neither is STARTING;
a forced rotation occurs only when both units are healthy (the STARTING
check is absent from `force_role_rotation`, see the counterexample). -/
theorem c8_rotation :
    (∀ (cracs : List CRACUnit) (cfg : StagingConfig),
      leadCount (initSequencer cracs cfg) ≤ 1) ∧
    (∀ (s : CRACSequencer) (dt sp m pid : ℚ),
      leadCount (s.update dt sp m pid) = leadCount s) ∧
    (∀ s : CRACSequencer, leadCount (forceRoleRotation s).1 = leadCount s) ∧
    (∀ (s : CRACSequencer) (i j : ℕ) (leadA lagA : CRACAssignment),
      findRoleIdx s.assignments .lead = some i →
      findRoleIdx s.assignments .lag = some j →
      s.assignments[i]? = some leadA → s.assignments[j]? = some lagA →
      leadA.unit.failed = false → lagA.unit.failed = false →
      (forceRoleRotation s).2 = true ∧
      (forceRoleRotation s).1.assignments[i]? =
        some { leadA with role := .lag, assigned_time := 0 } ∧
      (forceRoleRotation s).1.assignments[j]? =
        some { lagA with role := .lead, assigned_time := 0 } ∧
      (forceRoleRotation s).1.rotation_count = s.rotation_count + 1) ∧
    (∀ (s : CRACSequencer) (i j : ℕ) (leadA lagA : CRACAssignment),
      s.cfg.enable_rotation = true →
      findRoleIdx s.assignments .lead = some i →
      findRoleIdx s.assignments .lag = some j →
      s.assignments[i]? = some leadA → s.assignments[j]? = some lagA →
      leadA.assigned_time ≥ s.cfg.rotation_runtime_hours →
      leadA.unit.failed = false → lagA.unit.failed = false →
      leadA.unit.status ≠ .starting → lagA.unit.status ≠ .starting →
      (handleRoleRotation s).assignments[i]? =
        some { leadA with role := .lag, assigned_time := 0 } ∧
      (handleRoleRotation s).assignments[j]? =
        some { lagA with role := .lead, assigned_time := 0 } ∧
      (handleRoleRotation s).rotation_count = s.rotation_count + 1) ∧
    (∀ s : CRACSequencer,
      (handleRoleRotation s).rotation_count ≠ s.rotation_count →
      s.cfg.enable_rotation = true ∧ ∃ i j leadA lagA,
        findRoleIdx s.assignments .lead = some i ∧
        findRoleIdx s.assignments .lag = some j ∧
        s.assignments[i]? = some leadA ∧ s.assignments[j]? = some lagA ∧
        leadA.assigned_time ≥ s.cfg.rotation_runtime_hours ∧
        leadA.unit.failed = false ∧ lagA.unit.failed = false ∧
        leadA.unit.status ≠ .starting ∧ lagA.unit.status ≠ .starting) ∧
    (∀ s : CRACSequencer, (forceRoleRotation s).2 = true →
      ∃ i j leadA lagA,
        findRoleIdx s.assignments .lead = some i ∧
        findRoleIdx s.assignments .lag = some j ∧
        s.assignments[i]? = some leadA ∧ s.assignments[j]? = some lagA ∧
        leadA.unit.failed = false ∧ lagA.unit.failed = false) :=
  ⟨initSequencer_leadCount, update_leadCount, forceRoleRotation_leadCount,
   forceRotation_swap, handleRotation_swap,
   handleRotation_only_if, forceRotation_only_if⟩

/-- C8 witness: the forced-rotation swap law applied to the fresh
two-unit sequencer, every hypothesis discharged by evaluation. -/
theorem c8_rotation_witness :
    (forceRoleRotation c1seq0).2 = true ∧
    (forceRoleRotation c1seq0).1.rotation_count =
      c1seq0.rotation_count + 1 := by
  have h := c8_rotation.2.2.2.1 c1seq0 0 1
    ⟨initCRAC {}, .lead, 0, 0, 0⟩
    ⟨initCRAC { unit_id := "CRAC-02" }, .lag, 0, 0, 0⟩
    rfl rfl rfl rfl rfl rfl
  exact ⟨h.1, h.2.2.2⟩

end DCBas
